import Mathlib

/-!
# ode_air: aerodynamic drag, wind force and atmosphere formulas

A shallow embedding of `src/ode_air.cpp` / `src/ode_air.hpp`.

* `dReal` is read as an exact number: the force appliers and `getAirMolarMass` only need
  field arithmetic and a comparison, so they are written over an arbitrary linearly ordered
  field `K` (they run on `ℚ` and are reasoned about on `ℝ`); the formulas that call `sin`, `pow`
  or `exp` live on `ℝ`.  Rounding is not modelled anywhere.
* The atmosphere formulas are given in two readings.  In the first, a division whose divisor
  is not a non-zero literal goes through `dDiv`, which yields `none` for a zero divisor:
  `none` records that the evaluation divided by zero, it is not the value the program goes on
  to compute.  This reading settles the claims on division by zero and on the snapshot.  The
  second reading, in the namespace `Machine`, follows the values: a value is a number, an
  infinity or NaN, a zero divisor and an overflow produce what IEEE 754 arithmetic produces,
  and the evaluation continues.  It settles the claims on the values the formulas return.
* The rigid-body engine is an explicit state: every body has a linear velocity and a force
  accumulator.
-/

namespace OdeAirLib

/-! ## The external rigid-body engine -/

/-- A body handle of the external engine (`dBodyID`). -/
abbrev dBodyID := Nat

/-- The part of an engine body this module touches: its linear velocity and the force
accumulated on it for the current step. -/
structure dxBody (K : Type) where
  lvel : Fin 3 → K
  facc : Fin 3 → K

/-- The engine state: the bodies behind the handles. -/
abbrev Engine (K : Type) := dBodyID → dxBody K

section Appliers

variable {K : Type} [LinearOrderedField K]

/-- Modelled from the spec: `dBodyGetLinearVel` belongs to the external engine (its source is
not in `src/`); §6 has it read the current linear velocity of a body without changing the
engine state. -/
def dBodyGetLinearVel (w : Engine K) (body : dBodyID) : Fin 3 → K :=
  (w body).lvel

/-- Modelled from the spec: `dBodyAddForce` belongs to the external engine (its source is not
in `src/`); §6 has it accumulate an additive force `(fx, fy, fz)` on the body. -/
def dBodyAddForce (w : Engine K) (body : dBodyID) (fx fy fz : K) : Engine K :=
  fun b =>
    if b = body then
      { lvel := (w b).lvel
        facc := fun i =>
          match i with
          | 0 => (w b).facc 0 + fx
          | 1 => (w b).facc 1 + fy
          | 2 => (w b).facc 2 + fz }
    else w b

/-- Modelled from the spec: the unqualified `abs` the appliers call is declared outside `src/`
(it arrives through `<ode/ode.h>`); §4.3 reads the test `abs(v) > minVel` as `|v| > 0` on the
signed velocity component, so `abs` is the magnitude of its `dReal` argument. -/
def abs (x : K) : K :=
  if x < 0 then -x else x

/-- The circle constant as the source writes it (the literal of the two sphere appliers and of
`getAccelerationGravityLatitude`), a decimal fraction available in every field; `Machine.PI` is
the value the program holds for it. -/
def PI : K := 3.1415926535897932384626433832795

/-- `dBodyCalcAerodynamicDrag (body, Cxo, S, p)`, `ode_air.cpp` lines 3-14. -/
def dBodyCalcAerodynamicDrag (w : Engine K) (body : dBodyID) (Cxo S p : K) : Engine K :=
  let minVel : K := 0
  let vel := dBodyGetLinearVel w body
  let fAir : Fin 3 → K := fun i =>
    if abs (vel i) > minVel then
      let f := vel i * vel i * Cxo * p * S / 2
      if vel i > 0 then -f else f
    else 0
  dBodyAddForce w body (fAir 0) (fAir 1) (fAir 2)

/-- `dBodyCalcWindStrength (body, velWind, Cxo, S, p)`, `ode_air.cpp` lines 16-28. -/
def dBodyCalcWindStrength (w : Engine K) (body : dBodyID) (velWind : Fin 3 → K)
    (Cxo S p : K) : Engine K :=
  let minVel : K := 0
  let vel := dBodyGetLinearVel w body
  let fAir : Fin 3 → K := fun i =>
    let dvel := vel i - velWind i
    if abs dvel > minVel then
      let f := dvel * dvel * Cxo * p * S / 2
      if dvel > 0 then -f else f
    else 0
  dBodyAddForce w body (fAir 0) (fAir 1) (fAir 2)

/-- `dBodyCalcWindStrength3D (body, velWind, Cxo[3], S[3], p)`, `ode_air.cpp` lines 30-42. -/
def dBodyCalcWindStrength3D (w : Engine K) (body : dBodyID) (velWind Cxo S : Fin 3 → K)
    (p : K) : Engine K :=
  let minVel : K := 0
  let vel := dBodyGetLinearVel w body
  let fAir : Fin 3 → K := fun i =>
    let dvel := vel i - velWind i
    if abs dvel > minVel then
      let f := dvel * dvel * Cxo i * p * S i / 2
      if dvel > 0 then -f else f
    else 0
  dBodyAddForce w body (fAir 0) (fAir 1) (fAir 2)

/-- `dBodyCalcAerodynamicDragSphere (body, r, p)`, `ode_air.cpp` lines 44-58. -/
def dBodyCalcAerodynamicDragSphere (w : Engine K) (body : dBodyID) (r p : K) : Engine K :=
  let minVel : K := 0
  let Cxo : K := 0.47
  let S := r * r * PI
  let vel := dBodyGetLinearVel w body
  let fAir : Fin 3 → K := fun i =>
    if abs (vel i) > minVel then
      let f := vel i * vel i * Cxo * p * S / 2
      if vel i > 0 then -f else f
    else 0
  dBodyAddForce w body (fAir 0) (fAir 1) (fAir 2)

/-- `dBodyCalcWindStrengthSphere (body, velWind, r, p)`, `ode_air.cpp` lines 60-75. -/
def dBodyCalcWindStrengthSphere (w : Engine K) (body : dBodyID) (velWind : Fin 3 → K)
    (r p : K) : Engine K :=
  let minVel : K := 0
  let Cxo : K := 0.47
  let S := r * r * PI
  let vel := dBodyGetLinearVel w body
  let fAir : Fin 3 → K := fun i =>
    let dvel := vel i - velWind i
    if abs dvel > minVel then
      let f := dvel * dvel * Cxo * p * S / 2
      if dvel > 0 then -f else f
    else 0
  dBodyAddForce w body (fAir 0) (fAir 1) (fAir 2)

/-- The force vector a call pushed on `body`: what the call added to the accumulator, read off
the engine state before (`w`) and after (`w1`) it. -/
def forcePushed (w w1 : Engine K) (body : dBodyID) : Fin 3 → K :=
  fun i => (w1 body).facc i - (w body).facc i

end Appliers

/-! ## Atmosphere formulas -/

section Atmosphere

variable {K : Type} [LinearOrderedField K]

/-- The quotient `a / b` of two `dReal`s whose divisor is not a literal, with the zero divisor
detected: `none` records that the divisor is zero (the program does not stop there, see
`Machine.dReal.div` for what it computes), `some (a / b)` is the exact quotient otherwise. -/
def dDiv (a b : K) : Option K :=
  if b = 0 then none else some (a / b)

/-- `getAirMolarMass (P, Pv)`, `ode_air.cpp` lines 77-80, in exact arithmetic with the zero
divisor detected. -/
def getAirMolarMass (P Pv : K) : Option K := do
  let uv : K := 0.02896
  let q ← dDiv Pv P
  pure (uv - 0.010944 * q)

end Atmosphere

/-- `getAccelerationGravityLatitude (psy, h)`, `ode_air.cpp` lines 82-90; `sin` of `<math.h>`
is the real sine. -/
noncomputable def getAccelerationGravityLatitude (psy h : ℝ) : ℝ :=
  let rad := psy * PI / 180
  let coeff1 := Real.sin rad
  let coeff1 := coeff1 * coeff1
  let coeff2 := Real.sin (2 * rad)
  let coeff2 := coeff2 * coeff2
  9.780318 * (1 + 0.005302 * coeff1 - 0.000006 * coeff2) - 0.000003086 * h

/-- `getAirDensity (T, P, RH)`, `ode_air.cpp` lines 92-100, in exact arithmetic with the zero
divisors detected; `pow (10, x)` of `<math.h>` is the real power `10 ^ x`. -/
noncomputable def getAirDensity (T P RH : ℝ) : Option ℝ := do
  let e ← dDiv (7.5 * T - 2048.625) (T - 35.85)
  let Psat := 6.1078 * (10 : ℝ) ^ e
  let Psat := Psat * 100
  let Pv := RH * Psat
  let Pd := P - Pv
  let Rv : ℝ := 461.495
  let Rd : ℝ := 287.058
  let dry ← dDiv Pd (Rd * T)
  let vap ← dDiv Pv (Rv * T)
  pure (dry + vap)

/-- `getAirPressureFromAltitude (h, T, P0, RH, g)`, `ode_air.cpp` lines 102-109, in exact
arithmetic with the zero divisors detected; `exp` of `<math.h>` is the real exponential. -/
noncomputable def getAirPressureFromAltitude (h T P0 RH g : ℝ) : Option ℝ := do
  let e ← dDiv (7.5 * T - 2048.625) (T - 35.85)
  let Psat := 6.1078 * (10 : ℝ) ^ e
  let Psat := Psat * 100
  let Pv := RH * Psat
  let u ← getAirMolarMass P0 Pv
  let R : ℝ := 8.31
  let x ← dDiv (-u * g * h) (R * T)
  pure (P0 * Real.exp x)

/-! ## The atmosphere snapshot -/

/-- The fields of `class OdeAir`, `ode_air.hpp` lines 79-106; `density0` holds what
`getAirDensity` produced at construction. -/
structure OdeAir where
  T : ℝ
  RH : ℝ
  P0 : ℝ
  latitude : ℝ
  g : ℝ
  density0 : Option ℝ

/-- The constructor `OdeAir::OdeAir (T, RH, P0, latitude)`, `ode_air.cpp` lines 111-118 (named
`ctor` here, the structure already has the name `OdeAir`). -/
noncomputable def OdeAir.ctor (T RH P0 latitude : ℝ) : OdeAir :=
  { T := T
    RH := RH
    P0 := P0
    latitude := latitude
    g := getAccelerationGravityLatitude latitude 0
    density0 := getAirDensity T P0 RH }

/-- `OdeAir::getAccelerationGravity ()`, `ode_air.hpp` line 92. -/
def OdeAir.getAccelerationGravity (a : OdeAir) : ℝ :=
  a.g

/-- `OdeAir::getPressure (h)`, `ode_air.hpp` line 98. -/
noncomputable def OdeAir.getPressure (a : OdeAir) (h : ℝ) : Option ℝ :=
  getAirPressureFromAltitude h a.T a.P0 a.RH a.g

/-- `OdeAir::getDensity (h)`, `ode_air.hpp` line 104: the pressure is computed first and, when
it is a number, handed to `getAirDensity`. -/
noncomputable def OdeAir.getDensity (a : OdeAir) (h : ℝ) : Option ℝ := do
  let P ← getAirPressureFromAltitude h a.T a.P0 a.RH a.g
  getAirDensity a.T P a.RH

/-- The body of the loop the five appliers share, as a function of the relevant velocity
component `v` and of the coefficient, density and area used on that axis; the lemmas
`forcePushed_*` below show that every applier pushes this value on every axis. -/
def axisForce {K : Type} [LinearOrderedField K] (v Cxo p S : K) : K :=
  if abs v > 0 then
    if v > 0 then -(v * v * Cxo * p * S / 2) else v * v * Cxo * p * S / 2
  else 0

/-- The value the local `Pv` takes in `getAirDensity` and `getAirPressureFromAltitude` once
the exponent `(7.5 * T - 2048.625) / (T - 35.85)` is a number: `RH * Psat`, `Psat` being
`6.1078 * 10 ^ exponent` times `100`.  A shorthand for the statements below. -/
noncomputable def vaporPressure (T RH : ℝ) : ℝ :=
  RH * (6.1078 * (10 : ℝ) ^ ((7.5 * T - 2048.625) / (T - 35.85)) * 100)

/-- The 3-vector `(x, y, z)` as a `dReal[3]`. -/
def vec3 {K : Type} (x y z : K) : Fin 3 → K :=
  fun i =>
    match i with
    | 0 => x
    | 1 => y
    | 2 => z

/-- An engine all of whose bodies move with velocity `(vx, vy, vz)` and have an empty force
accumulator; used for the concrete scenarios. -/
def engineWithVel {K : Type} [Zero K] (vx vy vz : K) : Engine K :=
  fun _ => { lvel := vec3 vx vy vz, facc := fun _ => 0 }

/-! ## The machine reading: infinities, NaN and overflow

The definitions above read a `dReal` as an exact number and use `dDiv` to record that a divisor
was zero.  They do not say what the program goes on to compute after such a division, nor what
it computes when an intermediate result leaves the finite range of the machine type.  The
definitions of this section do: a value is a real number, `+inf`, `-inf` or NaN, a result
beyond the largest finite value becomes an infinity, and the infinities and NaN propagate as
in IEEE 754 arithmetic.  Rounding, underflow and the sign of zero are still not modelled
(a zero is `+0`). -/

namespace Machine

/-- The largest finite value of the machine type (that of a `double`, the type the source
writes its constants in). -/
def DBL_MAX : ℝ := 1.7976931348623157e308

/-- A value of the machine type: a real number, `+inf`, `-inf` or NaN. -/
inductive dReal where
  | fin (x : ℝ)
  | pinf
  | ninf
  | nan

namespace dReal

/-- The machine value of an exact result: an infinity when it is beyond the finite range. -/
noncomputable def ofReal (x : ℝ) : dReal :=
  if DBL_MAX < x then pinf else if x < -DBL_MAX then ninf else fin x

/-- Unary minus. -/
noncomputable def neg : dReal → dReal
  | fin x => fin (-x)
  | pinf => ninf
  | ninf => pinf
  | nan => nan

/-- Addition: `inf + (-inf)` is NaN. -/
noncomputable def add : dReal → dReal → dReal
  | fin x, fin y => ofReal (x + y)
  | fin _, pinf => pinf
  | fin _, ninf => ninf
  | pinf, fin _ => pinf
  | ninf, fin _ => ninf
  | pinf, pinf => pinf
  | ninf, ninf => ninf
  | _, _ => nan

/-- An infinity times a number: the sign decides, and `0 * inf` is NaN. -/
noncomputable def scaleInf (x : ℝ) (pos : Bool) : dReal :=
  if 0 < x then (if pos then pinf else ninf)
  else if x < 0 then (if pos then ninf else pinf)
  else nan

/-- Multiplication. -/
noncomputable def mul : dReal → dReal → dReal
  | fin x, fin y => ofReal (x * y)
  | fin x, pinf => scaleInf x true
  | fin x, ninf => scaleInf x false
  | pinf, fin y => scaleInf y true
  | ninf, fin y => scaleInf y false
  | pinf, pinf => pinf
  | pinf, ninf => ninf
  | ninf, pinf => ninf
  | ninf, ninf => pinf
  | _, _ => nan

/-- Division: a non-zero number over zero is an infinity of its sign, `0 / 0` and `inf / inf`
are NaN, a number over an infinity is zero. -/
noncomputable def div : dReal → dReal → dReal
  | fin x, fin y =>
    if y = 0 then (if 0 < x then pinf else if x < 0 then ninf else nan) else ofReal (x / y)
  | fin _, pinf => fin 0
  | fin _, ninf => fin 0
  | pinf, fin y => if 0 ≤ y then pinf else ninf
  | ninf, fin y => if 0 ≤ y then ninf else pinf
  | _, _ => nan

noncomputable instance : Neg dReal := ⟨neg⟩

noncomputable instance : Add dReal := ⟨add⟩

noncomputable instance : Sub dReal := ⟨fun a b => add a (neg b)⟩

noncomputable instance : Mul dReal := ⟨mul⟩

noncomputable instance : Div dReal := ⟨div⟩

/-- The call `pow (10, x)` of `<math.h>`: `10 ^ x`, `+inf` on overflow and for `x = +inf`, `0` for
`x = -inf`. -/
noncomputable def pow10 : dReal → dReal
  | fin x => ofReal ((10 : ℝ) ^ x)
  | pinf => pinf
  | ninf => fin 0
  | nan => nan

/-- The call `exp (x)` of `<math.h>`: `+inf` on overflow and for `x = +inf`, `0` for `x = -inf`. -/
noncomputable def exp : dReal → dReal
  | fin x => ofReal (Real.exp x)
  | pinf => pinf
  | ninf => fin 0
  | nan => nan

end dReal

open dReal

/-- `getAirMolarMass (P, Pv)`, `ode_air.cpp` lines 77-80, on machine values. -/
noncomputable def getAirMolarMass (P Pv : dReal) : dReal :=
  let uv := fin 0.02896
  uv - fin 0.010944 * (Pv / P)

/-- `getAirDensity (T, P, RH)`, `ode_air.cpp` lines 92-100, on machine values. -/
noncomputable def getAirDensity (T P RH : dReal) : dReal :=
  let Psat := fin 6.1078 * pow10 ((fin 7.5 * T - fin 2048.625) / (T - fin 35.85))
  let Psat := Psat * fin 100
  let Pv := RH * Psat
  let Pd := P - Pv
  let Rv := fin 461.495
  let Rd := fin 287.058
  (Pd / (Rd * T)) + (Pv / (Rv * T))

/-- `getAirPressureFromAltitude (h, T, P0, RH, g)`, `ode_air.cpp` lines 102-109, on machine
values. -/
noncomputable def getAirPressureFromAltitude (h T P0 RH g : dReal) : dReal :=
  let Psat := fin 6.1078 * pow10 ((fin 7.5 * T - fin 2048.625) / (T - fin 35.85))
  let Psat := Psat * fin 100
  let Pv := RH * Psat
  let u := getAirMolarMass P0 Pv
  let R := fin 8.31
  P0 * exp ((-u * g * h) / (R * T))

/-- The local `Pv` of `getAirDensity` and `getAirPressureFromAltitude` (their first three
lines) on machine values; a shorthand for the statements below. -/
noncomputable def vaporPressure (T RH : dReal) : dReal :=
  RH * (fin 6.1078 * pow10 ((fin 7.5 * T - fin 2048.625) / (T - fin 35.85)) * fin 100)

/-- The real number `x` is within the finite range of the machine type. -/
def InRange (x : ℝ) : Prop :=
  -DBL_MAX ≤ x ∧ x ≤ DBL_MAX

/-- No intermediate result of the first three lines of `getAirDensity` and
`getAirPressureFromAltitude` (the computation of `Pv`) leaves the finite range, for a
temperature `T` other than `35.85` and a humidity `RH`. -/
def VaporInRange (T RH : ℝ) : Prop :=
  InRange (7.5 * T) ∧ InRange (7.5 * T - 2048.625) ∧ InRange (T - 35.85) ∧
  InRange ((7.5 * T - 2048.625) / (T - 35.85)) ∧
  InRange ((10 : ℝ) ^ ((7.5 * T - 2048.625) / (T - 35.85))) ∧
  InRange (6.1078 * (10 : ℝ) ^ ((7.5 * T - 2048.625) / (T - 35.85))) ∧
  InRange (6.1078 * (10 : ℝ) ^ ((7.5 * T - 2048.625) / (T - 35.85)) * 100) ∧
  InRange (RH * (6.1078 * (10 : ℝ) ^ ((7.5 * T - 2048.625) / (T - 35.85)) * 100))

/-- No intermediate result of the last lines of `getAirDensity (T, P, RH)` leaves the finite
range, `v` being the value of `Pv`. -/
def DensityTailInRange (T P v : ℝ) : Prop :=
  InRange (P - v) ∧ InRange (287.058 * T) ∧ InRange ((P - v) / (287.058 * T)) ∧
  InRange (461.495 * T) ∧ InRange (v / (461.495 * T)) ∧
  InRange ((P - v) / (287.058 * T) + v / (461.495 * T))

/-- No intermediate result of the last lines of `getAirPressureFromAltitude (h, T, P0, RH, g)`
(the call of `getAirMolarMass` and the barometric formula) leaves the finite range, `v` being
the value of `Pv`. -/
def PressureTailInRange (h T P0 g v : ℝ) : Prop :=
  InRange (v / P0) ∧ InRange (0.010944 * (v / P0)) ∧
  InRange (0.02896 - 0.010944 * (v / P0)) ∧
  InRange (-(0.02896 - 0.010944 * (v / P0)) * g) ∧
  InRange (-(0.02896 - 0.010944 * (v / P0)) * g * h) ∧
  InRange (8.31 * T) ∧
  InRange (-(0.02896 - 0.010944 * (v / P0)) * g * h / (8.31 * T)) ∧
  InRange (Real.exp (-(0.02896 - 0.010944 * (v / P0)) * g * h / (8.31 * T))) ∧
  InRange (P0 * Real.exp (-(0.02896 - 0.010944 * (v / P0)) * g * h / (8.31 * T)))

/-- No intermediate result of `getAirDensity (T, P, RH)` leaves the finite range (`T` other
than `35.85`). -/
def DensityInRange (T P RH : ℝ) : Prop :=
  VaporInRange T RH ∧ DensityTailInRange T P (OdeAirLib.vaporPressure T RH)

/-- The real number `P0 * exp (-u * g * h / (R * T))` with `u = 0.02896 - 0.010944 * (v / P0)`:
the pressure `getAirPressureFromAltitude (h, T, P0, RH, g)` returns when `Pv` is the number `v`
and nothing overflows.  A shorthand for the statements below. -/
noncomputable def barometricPressure (h T P0 g v : ℝ) : ℝ :=
  P0 * Real.exp (-(0.02896 - 0.010944 * (v / P0)) * g * h / (8.31 * T))

/-- The constant `PI` of the source as the machine holds it.  The literal
`3.1415926535897932384626433832795` agrees with `π` to 31 decimals, more than the type keeps,
and is stored as the value of the type nearest to `π`; up to the rounding of the type, which
this development does not model, the program computes with `π`. -/
noncomputable def PI : ℝ := Real.pi

/-- `getAccelerationGravityLatitude (psy, h)`, `ode_air.cpp` lines 82-90, with the constant
`PI` as the machine holds it. -/
noncomputable def getAccelerationGravityLatitude (psy h : ℝ) : ℝ :=
  let rad := psy * PI / 180
  let coeff1 := Real.sin rad
  let coeff1 := coeff1 * coeff1
  let coeff2 := Real.sin (2 * rad)
  let coeff2 := coeff2 * coeff2
  9.780318 * (1 + 0.005302 * coeff1 - 0.000006 * coeff2) - 0.000003086 * h

/-- `dBodyCalcAerodynamicDragSphere (body, r, p)`, `ode_air.cpp` lines 44-58, with the constant
`PI` as the machine holds it. -/
noncomputable def dBodyCalcAerodynamicDragSphere (w : Engine ℝ) (body : dBodyID) (r p : ℝ) :
    Engine ℝ :=
  let minVel : ℝ := 0
  let Cxo : ℝ := 0.47
  let S := r * r * PI
  let vel := dBodyGetLinearVel w body
  let fAir : Fin 3 → ℝ := fun i =>
    if OdeAirLib.abs (vel i) > minVel then
      let f := vel i * vel i * Cxo * p * S / 2
      if vel i > 0 then -f else f
    else 0
  dBodyAddForce w body (fAir 0) (fAir 1) (fAir 2)

/-- `dBodyCalcWindStrengthSphere (body, velWind, r, p)`, `ode_air.cpp` lines 60-75, with the
constant `PI` as the machine holds it. -/
noncomputable def dBodyCalcWindStrengthSphere (w : Engine ℝ) (body : dBodyID)
    (velWind : Fin 3 → ℝ) (r p : ℝ) : Engine ℝ :=
  let minVel : ℝ := 0
  let Cxo : ℝ := 0.47
  let S := r * r * PI
  let vel := dBodyGetLinearVel w body
  let fAir : Fin 3 → ℝ := fun i =>
    let dvel := vel i - velWind i
    if OdeAirLib.abs dvel > minVel then
      let f := dvel * dvel * Cxo * p * S / 2
      if dvel > 0 then -f else f
    else 0
  dBodyAddForce w body (fAir 0) (fAir 1) (fAir 2)

end Machine

/-! ## The force appliers: what is pushed -/

section ApplierLemmas

variable {K : Type} [LinearOrderedField K]

theorem forcePushed_dBodyAddForce (w : Engine K) (body : dBodyID) (f : Fin 3 → K) (i : Fin 3) :
    forcePushed w (dBodyAddForce w body (f 0) (f 1) (f 2)) body i = f i := by
  fin_cases i <;> simp [forcePushed, dBodyAddForce]

theorem forcePushed_drag (w : Engine K) (body : dBodyID) (Cxo S p : K) (i : Fin 3) :
    forcePushed w (dBodyCalcAerodynamicDrag w body Cxo S p) body i
      = axisForce ((w body).lvel i) Cxo p S := by
  fin_cases i <;>
    simp [dBodyCalcAerodynamicDrag, forcePushed, dBodyAddForce, dBodyGetLinearVel, axisForce]

theorem forcePushed_wind (w : Engine K) (body : dBodyID) (velWind : Fin 3 → K) (Cxo S p : K)
    (i : Fin 3) :
    forcePushed w (dBodyCalcWindStrength w body velWind Cxo S p) body i
      = axisForce ((w body).lvel i - velWind i) Cxo p S := by
  fin_cases i <;>
    simp [dBodyCalcWindStrength, forcePushed, dBodyAddForce, dBodyGetLinearVel, axisForce]

theorem forcePushed_wind3D (w : Engine K) (body : dBodyID) (velWind Cxo S : Fin 3 → K) (p : K)
    (i : Fin 3) :
    forcePushed w (dBodyCalcWindStrength3D w body velWind Cxo S p) body i
      = axisForce ((w body).lvel i - velWind i) (Cxo i) p (S i) := by
  fin_cases i <;>
    simp [dBodyCalcWindStrength3D, forcePushed, dBodyAddForce, dBodyGetLinearVel, axisForce]

theorem forcePushed_dragSphere (w : Engine K) (body : dBodyID) (r p : K) (i : Fin 3) :
    forcePushed w (dBodyCalcAerodynamicDragSphere w body r p) body i
      = axisForce ((w body).lvel i) 0.47 p (r * r * PI) := by
  fin_cases i <;>
    simp [dBodyCalcAerodynamicDragSphere, forcePushed, dBodyAddForce, dBodyGetLinearVel, axisForce]

theorem forcePushed_windSphere (w : Engine K) (body : dBodyID) (velWind : Fin 3 → K) (r p : K)
    (i : Fin 3) :
    forcePushed w (dBodyCalcWindStrengthSphere w body velWind r p) body i
      = axisForce ((w body).lvel i - velWind i) 0.47 p (r * r * PI) := by
  fin_cases i <;>
    simp [dBodyCalcWindStrengthSphere, forcePushed, dBodyAddForce, dBodyGetLinearVel, axisForce]

theorem abs_pos_iff_ne (x : K) : abs x > 0 ↔ x ≠ 0 := by
  unfold abs
  split_ifs with h
  · constructor
    · intro _; exact ne_of_lt h
    · intro _; linarith
  · constructor
    · intro hx; exact ne_of_gt hx
    · intro hx; exact lt_of_le_of_ne (not_lt.mp h) (Ne.symm hx)

theorem axisForce_of_pos {v : K} (hv : 0 < v) (Cxo p S : K) :
    axisForce v Cxo p S = -(v ^ 2 * Cxo * p * S / 2) := by
  have h : abs v > 0 := (abs_pos_iff_ne v).2 (ne_of_gt hv)
  simp only [axisForce, h, hv, gt_iff_lt, if_true]
  ring

theorem axisForce_of_neg {v : K} (hv : v < 0) (Cxo p S : K) :
    axisForce v Cxo p S = v ^ 2 * Cxo * p * S / 2 := by
  have h : abs v > 0 := (abs_pos_iff_ne v).2 (ne_of_lt hv)
  have h2 : ¬ v > 0 := not_lt.mpr (le_of_lt hv)
  simp only [axisForce, h, h2, if_true, if_false]
  ring

theorem axisForce_zero (Cxo p S : K) : axisForce 0 Cxo p S = 0 := by
  have h : ¬ abs (0 : K) > 0 := by
    rw [abs_pos_iff_ne]; simp
  simp only [axisForce, h, if_false]

theorem PI_pos : (0 : K) < PI := by
  unfold PI; norm_num

end ApplierLemmas

/-! ## Claims on the force appliers -/

/-- C1: for each of the five force appliers, on every axis `i` whose relevant velocity
component `v` (body velocity for the drag variants, body velocity minus wind velocity for the
wind variants) is not zero, and for positive coefficient, area and density, the pushed force
component is `-(v² * Cxo * p * S / 2)` and negative when `v > 0`, and `+(v² * Cxo * p * S / 2)`
and positive when `v < 0`; components with `0 < |v| < 1` are covered like all others.  For the
sphere variants `Cxo` is `0.47` and `S` is `r * r * PI`. -/
theorem force_component_opposes_velocity {K : Type} [LinearOrderedField K]
    (w : Engine K) (body : dBodyID) (velWind Cxo3 S3 : Fin 3 → K) (Cxo S r p : K) (i : Fin 3)
    (hCxo : 0 < Cxo) (hS : 0 < S) (hp : 0 < p) (hr : r ≠ 0)
    (hCxo3 : 0 < Cxo3 i) (hS3 : 0 < S3 i) :
    ((0 < (w body).lvel i →
        forcePushed w (dBodyCalcAerodynamicDrag w body Cxo S p) body i
            = -((w body).lvel i ^ 2 * Cxo * p * S / 2) ∧
          forcePushed w (dBodyCalcAerodynamicDrag w body Cxo S p) body i < 0) ∧
      ((w body).lvel i < 0 →
        forcePushed w (dBodyCalcAerodynamicDrag w body Cxo S p) body i
            = (w body).lvel i ^ 2 * Cxo * p * S / 2 ∧
          0 < forcePushed w (dBodyCalcAerodynamicDrag w body Cxo S p) body i)) ∧
    ((0 < (w body).lvel i →
        forcePushed w (dBodyCalcAerodynamicDragSphere w body r p) body i
            = -((w body).lvel i ^ 2 * 0.47 * p * (r * r * PI) / 2) ∧
          forcePushed w (dBodyCalcAerodynamicDragSphere w body r p) body i < 0) ∧
      ((w body).lvel i < 0 →
        forcePushed w (dBodyCalcAerodynamicDragSphere w body r p) body i
            = (w body).lvel i ^ 2 * 0.47 * p * (r * r * PI) / 2 ∧
          0 < forcePushed w (dBodyCalcAerodynamicDragSphere w body r p) body i)) ∧
    ((0 < (w body).lvel i - velWind i →
        forcePushed w (dBodyCalcWindStrength w body velWind Cxo S p) body i
            = -(((w body).lvel i - velWind i) ^ 2 * Cxo * p * S / 2) ∧
          forcePushed w (dBodyCalcWindStrength w body velWind Cxo S p) body i < 0) ∧
      ((w body).lvel i - velWind i < 0 →
        forcePushed w (dBodyCalcWindStrength w body velWind Cxo S p) body i
            = ((w body).lvel i - velWind i) ^ 2 * Cxo * p * S / 2 ∧
          0 < forcePushed w (dBodyCalcWindStrength w body velWind Cxo S p) body i)) ∧
    ((0 < (w body).lvel i - velWind i →
        forcePushed w (dBodyCalcWindStrength3D w body velWind Cxo3 S3 p) body i
            = -(((w body).lvel i - velWind i) ^ 2 * Cxo3 i * p * S3 i / 2) ∧
          forcePushed w (dBodyCalcWindStrength3D w body velWind Cxo3 S3 p) body i < 0) ∧
      ((w body).lvel i - velWind i < 0 →
        forcePushed w (dBodyCalcWindStrength3D w body velWind Cxo3 S3 p) body i
            = ((w body).lvel i - velWind i) ^ 2 * Cxo3 i * p * S3 i / 2 ∧
          0 < forcePushed w (dBodyCalcWindStrength3D w body velWind Cxo3 S3 p) body i)) ∧
    ((0 < (w body).lvel i - velWind i →
        forcePushed w (dBodyCalcWindStrengthSphere w body velWind r p) body i
            = -(((w body).lvel i - velWind i) ^ 2 * 0.47 * p * (r * r * PI) / 2) ∧
          forcePushed w (dBodyCalcWindStrengthSphere w body velWind r p) body i < 0) ∧
      ((w body).lvel i - velWind i < 0 →
        forcePushed w (dBodyCalcWindStrengthSphere w body velWind r p) body i
            = ((w body).lvel i - velWind i) ^ 2 * 0.47 * p * (r * r * PI) / 2 ∧
          0 < forcePushed w (dBodyCalcWindStrengthSphere w body velWind r p) body i)) := by
  have key : ∀ v c s : K, 0 < c → 0 < s →
      (0 < v → axisForce v c p s = -(v ^ 2 * c * p * s / 2) ∧ axisForce v c p s < 0) ∧
      (v < 0 → axisForce v c p s = v ^ 2 * c * p * s / 2 ∧ 0 < axisForce v c p s) := by
    intro v c s hc hs
    constructor
    · intro hv
      have hv2 : 0 < v ^ 2 := pow_pos hv 2
      have hm : 0 < v ^ 2 * c * p * s / 2 :=
        half_pos (mul_pos (mul_pos (mul_pos hv2 hc) hp) hs)
      rw [axisForce_of_pos hv]
      exact ⟨rfl, by linarith⟩
    · intro hv
      have hv2 : 0 < v ^ 2 := by nlinarith
      have hm : 0 < v ^ 2 * c * p * s / 2 :=
        half_pos (mul_pos (mul_pos (mul_pos hv2 hc) hp) hs)
      rw [axisForce_of_neg hv]
      exact ⟨rfl, hm⟩
  have hSr : (0 : K) < r * r * PI := mul_pos (mul_self_pos.mpr hr) PI_pos
  have h47 : (0 : K) < 0.47 := by norm_num
  rw [forcePushed_drag, forcePushed_dragSphere, forcePushed_wind, forcePushed_wind3D,
    forcePushed_windSphere]
  exact ⟨key _ _ _ hCxo hS, key _ _ _ h47 hSr, key _ _ _ hCxo hS, key _ _ _ hCxo3 hS3,
    key _ _ _ h47 hSr⟩

/-- Witness for C1: the scenario of §8, body velocity `(10, 0, -5)`, `Cxo = 0.47`, `S = 1`,
`p = 1.22`: the drag pushed on axis 0 is `-28.67` and on axis 2 it is `7.1675`; and a slow
component, `v = 1/2`, is pushed back with `-(v² * Cxo * p * S / 2) = -0.071675` too. -/
theorem force_component_opposes_velocity_witness :
    ((0 : ℚ) < 0.47 ∧ (0 : ℚ) < 1 ∧ (0 : ℚ) < 1.22 ∧ (1 : ℚ) ≠ 0) ∧
    forcePushed (engineWithVel (10 : ℚ) 0 (-5))
        (dBodyCalcAerodynamicDrag (engineWithVel (10 : ℚ) 0 (-5)) 0 0.47 1 1.22) 0 0 = -28.67 ∧
    forcePushed (engineWithVel (10 : ℚ) 0 (-5))
        (dBodyCalcAerodynamicDrag (engineWithVel (10 : ℚ) 0 (-5)) 0 0.47 1 1.22) 0 2 = 7.1675 ∧
    forcePushed (engineWithVel (1 / 2 : ℚ) 0 0)
        (dBodyCalcAerodynamicDrag (engineWithVel (1 / 2 : ℚ) 0 0) 0 0.47 1 1.22) 0 0
      = -0.071675 := by
  have h0 := force_component_opposes_velocity (engineWithVel (10 : ℚ) 0 (-5)) 0 (fun _ => 0)
    (fun _ => 0.47) (fun _ => 1) 0.47 1 1 1.22 0 (by norm_num) (by norm_num) (by norm_num)
    (by norm_num) (by norm_num) (by norm_num)
  have h2 := force_component_opposes_velocity (engineWithVel (10 : ℚ) 0 (-5)) 0 (fun _ => 0)
    (fun _ => 0.47) (fun _ => 1) 0.47 1 1 1.22 2 (by norm_num) (by norm_num) (by norm_num)
    (by norm_num) (by norm_num) (by norm_num)
  have hs := force_component_opposes_velocity (engineWithVel (1 / 2 : ℚ) 0 0) 0 (fun _ => 0)
    (fun _ => 0.47) (fun _ => 1) 0.47 1 1 1.22 0 (by norm_num) (by norm_num) (by norm_num)
    (by norm_num) (by norm_num) (by norm_num)
  refine ⟨⟨by norm_num, by norm_num, by norm_num, by norm_num⟩, ?_, ?_, ?_⟩
  · rw [(h0.1.1 (by simp [engineWithVel, vec3])).1]
    simp only [engineWithVel, vec3]
    norm_num
  · rw [(h2.1.2 (by simp [engineWithVel, vec3])).1]
    simp only [engineWithVel, vec3]
    norm_num
  · rw [(hs.1.1 (by simp [engineWithVel, vec3])).1]
    simp only [engineWithVel, vec3]
    norm_num

/-- C2: for each of the five force appliers and every axis `i`, when the relevant velocity
component (body velocity for the drag variants, body velocity minus wind velocity for the wind
variants) is exactly `0`, the force component pushed on that axis is exactly `0`, whatever
`Cxo`, `S`, `r` and `p` are; in particular a wind equal to the body velocity on all three axes
makes every wind variant push `(0, 0, 0)`. -/
theorem zero_velocity_component_zero_force {K : Type} [LinearOrderedField K]
    (w : Engine K) (body : dBodyID) (velWind Cxo3 S3 : Fin 3 → K) (Cxo S r p : K) :
    (∀ i, (w body).lvel i = 0 →
      forcePushed w (dBodyCalcAerodynamicDrag w body Cxo S p) body i = 0 ∧
      forcePushed w (dBodyCalcAerodynamicDragSphere w body r p) body i = 0) ∧
    (∀ i, (w body).lvel i - velWind i = 0 →
      forcePushed w (dBodyCalcWindStrength w body velWind Cxo S p) body i = 0 ∧
      forcePushed w (dBodyCalcWindStrength3D w body velWind Cxo3 S3 p) body i = 0 ∧
      forcePushed w (dBodyCalcWindStrengthSphere w body velWind r p) body i = 0) ∧
    ((∀ j, velWind j = (w body).lvel j) →
      ∀ i, forcePushed w (dBodyCalcWindStrength w body velWind Cxo S p) body i = 0 ∧
        forcePushed w (dBodyCalcWindStrength3D w body velWind Cxo3 S3 p) body i = 0 ∧
        forcePushed w (dBodyCalcWindStrengthSphere w body velWind r p) body i = 0) := by
  refine ⟨?_, ?_, ?_⟩
  · intro i hv
    rw [forcePushed_drag, forcePushed_dragSphere, hv]
    exact ⟨axisForce_zero _ _ _, axisForce_zero _ _ _⟩
  · intro i hv
    rw [forcePushed_wind, forcePushed_wind3D, forcePushed_windSphere, hv]
    exact ⟨axisForce_zero _ _ _, axisForce_zero _ _ _, axisForce_zero _ _ _⟩
  · intro hw i
    have hv : (w body).lvel i - velWind i = 0 := by rw [hw i]; exact sub_self _
    rw [forcePushed_wind, forcePushed_wind3D, forcePushed_windSphere, hv]
    exact ⟨axisForce_zero _ _ _, axisForce_zero _ _ _, axisForce_zero _ _ _⟩

/-- Witness for C2: the wind scenario of §8, body velocity `(5, 0, 0)` and wind `(5, 0, 0)`:
the three wind variants push `0` on every axis. -/
theorem zero_velocity_component_zero_force_witness :
    (∀ j, vec3 (5 : ℚ) 0 0 j = (engineWithVel (5 : ℚ) 0 0 0).lvel j) ∧
    ∀ i, forcePushed (engineWithVel (5 : ℚ) 0 0)
          (dBodyCalcWindStrength (engineWithVel (5 : ℚ) 0 0) 0 (vec3 5 0 0) 0.47 1 1.22) 0 i = 0 ∧
        forcePushed (engineWithVel (5 : ℚ) 0 0)
          (dBodyCalcWindStrength3D (engineWithVel (5 : ℚ) 0 0) 0 (vec3 5 0 0) (vec3 0.47 1.05 0.82)
            (vec3 1 2 3) 1.22) 0 i = 0 ∧
        forcePushed (engineWithVel (5 : ℚ) 0 0)
          (dBodyCalcWindStrengthSphere (engineWithVel (5 : ℚ) 0 0) 0 (vec3 5 0 0) 2 1.22) 0 i = 0 :=
  ⟨fun _ => rfl,
    (zero_velocity_component_zero_force (engineWithVel (5 : ℚ) 0 0) 0 (vec3 5 0 0)
      (vec3 0.47 1.05 0.82) (vec3 1 2 3) 0.47 1 2 1.22).2.2 (fun _ => rfl)⟩

/-! ## The atmosphere formulas: closed forms and definedness -/

theorem dDiv_of_ne {K : Type} [LinearOrderedField K] (a : K) {b : K} (hb : b ≠ 0) :
    dDiv a b = some (a / b) := by
  simp [dDiv, hb]

theorem dDiv_zero {K : Type} [LinearOrderedField K] (a : K) : dDiv a 0 = none := by
  simp [dDiv]

theorem getAirMolarMass_of_ne {K : Type} [LinearOrderedField K] {P : K} (hP : P ≠ 0) (Pv : K) :
    getAirMolarMass P Pv = some (0.02896 - 0.010944 * (Pv / P)) := by
  simp [getAirMolarMass, dDiv_of_ne _ hP]

theorem getAirMolarMass_zero {K : Type} [LinearOrderedField K] (Pv : K) :
    getAirMolarMass 0 Pv = none := by
  simp [getAirMolarMass, dDiv_zero]

theorem sub_3585_ne {T : ℝ} (hT : T ≠ 35.85) : T - 35.85 ≠ 0 :=
  sub_ne_zero.mpr hT

theorem getAirDensity_of_ne {T : ℝ} (hT : T ≠ 0) (hT2 : T ≠ 35.85) (P RH : ℝ) :
    getAirDensity T P RH
      = some ((P - vaporPressure T RH) / (287.058 * T) + vaporPressure T RH / (461.495 * T)) := by
  have h1 : (287.058 : ℝ) * T ≠ 0 := mul_ne_zero (by norm_num) hT
  have h2 : (461.495 : ℝ) * T ≠ 0 := mul_ne_zero (by norm_num) hT
  simp [getAirDensity, dDiv_of_ne _ (sub_3585_ne hT2), dDiv_of_ne _ h1, dDiv_of_ne _ h2,
    vaporPressure]

theorem vaporPressure_27315 (RH : ℝ) : vaporPressure 273.15 RH = RH * 610.78 := by
  have h0 : (7.5 : ℝ) * 273.15 - 2048.625 = 0 := by norm_num
  unfold vaporPressure
  rw [h0, zero_div, Real.rpow_zero]
  norm_num

/-- The barometric exponent is antitone in the altitude when the molar mass is not negative. -/
theorem barometric_exponent_antitone {u g T : ℝ} (hu : 0 ≤ u) (hg : 0 < g) (hT : 0 < T)
    {h1 h2 : ℝ} (h12 : h1 ≤ h2) :
    -u * g * h2 / (8.31 * T) ≤ -u * g * h1 / (8.31 * T) := by
  have hRT : (0 : ℝ) < 8.31 * T := by positivity
  apply div_le_div_of_nonneg_right _ (le_of_lt hRT)
  have : 0 ≤ u * g * (h2 - h1) := by
    have := sub_nonneg.mpr h12
    positivity
  nlinarith

/-- The barometric exponent strictly grows with the altitude when the molar mass is negative. -/
theorem barometric_exponent_strictMono {u g T : ℝ} (hu : u < 0) (hg : 0 < g) (hT : 0 < T)
    {h1 h2 : ℝ} (h12 : h1 < h2) :
    -u * g * h1 / (8.31 * T) < -u * g * h2 / (8.31 * T) := by
  have hRT : (0 : ℝ) < 8.31 * T := by positivity
  apply div_lt_div_of_pos_right _ hRT
  have h3 : 0 < (-u) * g * (h2 - h1) :=
    mul_pos (mul_pos (neg_pos.mpr hu) hg) (sub_pos.mpr h12)
  nlinarith

/-! ## Claims on the atmosphere snapshot and formulas -/

/-- The density `getAirDensity` returns grows with the pressure it is given, for `T > 0`. -/
theorem density_formula_mono {T : ℝ} (hT : 0 < T) (Pv : ℝ) {P Q : ℝ} (hPQ : P ≤ Q) :
    (P - Pv) / (287.058 * T) + Pv / (461.495 * T)
      ≤ (Q - Pv) / (287.058 * T) + Pv / (461.495 * T) := by
  have hRd : (0 : ℝ) < 287.058 * T := by positivity
  have := div_le_div_of_nonneg_right (sub_le_sub_right hPQ Pv) (le_of_lt hRd)
  linarith

theorem density_formula_strictMono {T : ℝ} (hT : 0 < T) (Pv : ℝ) {P Q : ℝ} (hPQ : P < Q) :
    (P - Pv) / (287.058 * T) + Pv / (461.495 * T)
      < (Q - Pv) / (287.058 * T) + Pv / (461.495 * T) := by
  have hRd : (0 : ℝ) < 287.058 * T := by positivity
  have := div_lt_div_of_pos_right (sub_lt_sub_right hPQ Pv) hRd
  linarith

/-! ## Gravity by latitude -/

/-- C8: `getAccelerationGravityLatitude (0, 0)` is exactly `9.780318`. -/
theorem gravity_at_equator : getAccelerationGravityLatitude 0 0 = 9.780318 := by
  unfold getAccelerationGravityLatitude
  simp

/-! ## The snapshot queries -/

/-- C9: for every `(T, RH, P0, latitude)` and altitude `h`, the snapshot constructed from the
four values answers `getAccelerationGravity ()` with `getAccelerationGravityLatitude (latitude, 0)`,
`getPressure (h)` with `getAirPressureFromAltitude (h, T, P0, RH, g)` for that stored
latitude-derived `g` (the default `9.81` of the free function plays no part), and
`getDensity (h)` with `getAirDensity (T, getPressure (h), RH)`. -/
theorem snapshot_queries_use_stored_gravity (T RH P0 latitude h : ℝ) :
    (OdeAir.ctor T RH P0 latitude).getAccelerationGravity
        = getAccelerationGravityLatitude latitude 0 ∧
    (OdeAir.ctor T RH P0 latitude).getPressure h
        = getAirPressureFromAltitude h T P0 RH (getAccelerationGravityLatitude latitude 0) ∧
    (OdeAir.ctor T RH P0 latitude).getDensity h
        = ((OdeAir.ctor T RH P0 latitude).getPressure h).bind
            (fun P => getAirDensity T P RH) :=
  ⟨rfl, rfl, rfl⟩

/-! ## Division by zero in `getAirPressureFromAltitude` -/

/-- C11: `T != 0` and `T != 35.85` are a sufficient precondition for `getAirDensity`: for
every `P` and `RH` the three divisors `T - 35.85`, `Rd * T` and `Rv * T` are non-zero, each of
the three divisions yields a number, and so does the function. -/
theorem density_defined_of_preconditions (T P RH : ℝ) (hT : T ≠ 0) (hT2 : T ≠ 35.85) :
    T - 35.85 ≠ 0 ∧ 287.058 * T ≠ 0 ∧ 461.495 * T ≠ 0 ∧
    (∃ e, dDiv (7.5 * T - 2048.625) (T - 35.85) = some e) ∧
    (∃ dry, dDiv (P - vaporPressure T RH) (287.058 * T) = some dry) ∧
    (∃ vap, dDiv (vaporPressure T RH) (461.495 * T) = some vap) ∧
    (∃ d, getAirDensity T P RH = some d) := by
  have h1 : (287.058 : ℝ) * T ≠ 0 := mul_ne_zero (by norm_num) hT
  have h2 : (461.495 : ℝ) * T ≠ 0 := mul_ne_zero (by norm_num) hT
  exact ⟨sub_3585_ne hT2, h1, h2, ⟨_, dDiv_of_ne _ (sub_3585_ne hT2)⟩, ⟨_, dDiv_of_ne _ h1⟩,
    ⟨_, dDiv_of_ne _ h2⟩, ⟨_, getAirDensity_of_ne hT hT2 P RH⟩⟩

/-- Witness for C11: `T = 288.15`, `P = 101325`, `RH = 0.5`. -/
theorem density_defined_of_preconditions_witness :
    ((288.15 : ℝ) ≠ 0 ∧ (288.15 : ℝ) ≠ 35.85) ∧
    ∃ d, getAirDensity 288.15 101325 0.5 = some d :=
  ⟨⟨by norm_num, by norm_num⟩,
    (density_defined_of_preconditions 288.15 101325 0.5 (by norm_num)
      (by norm_num)).2.2.2.2.2.2⟩

/-! ## The appliers as one force push -/

section Frame

variable {K : Type} [LinearOrderedField K]

theorem dBodyAddForce_facc (w : Engine K) (body : dBodyID) (f : Fin 3 → K) (i : Fin 3) :
    (dBodyAddForce w body (f 0) (f 1) (f 2) body).facc i = (w body).facc i + f i := by
  fin_cases i <;> simp [dBodyAddForce]

theorem dBodyAddForce_lvel (w : Engine K) (body : dBodyID) (fx fy fz : K) :
    (dBodyAddForce w body fx fy fz body).lvel = (w body).lvel := by
  simp [dBodyAddForce]

theorem dBodyAddForce_other (w : Engine K) (body : dBodyID) (fx fy fz : K) {b : dBodyID}
    (hb : b ≠ body) : dBodyAddForce w body fx fy fz b = w b := by
  simp [dBodyAddForce, hb]

theorem dBodyAddForce_frame (w : Engine K) (body : dBodyID) (f : Fin 3 → K) :
    (∀ i, (dBodyAddForce w body (f 0) (f 1) (f 2) body).facc i = (w body).facc i + f i) ∧
    (dBodyAddForce w body (f 0) (f 1) (f 2) body).lvel = (w body).lvel ∧
    (∀ b, b ≠ body → dBodyAddForce w body (f 0) (f 1) (f 2) b = w b) :=
  ⟨dBodyAddForce_facc w body f, dBodyAddForce_lvel w body _ _ _,
    fun _ hb => dBodyAddForce_other w body _ _ _ hb⟩

theorem drag_eq_addForce (w : Engine K) (body : dBodyID) (Cxo S p : K) :
    dBodyCalcAerodynamicDrag w body Cxo S p
      = dBodyAddForce w body (axisForce ((w body).lvel 0) Cxo p S)
          (axisForce ((w body).lvel 1) Cxo p S) (axisForce ((w body).lvel 2) Cxo p S) :=
  rfl

theorem dragSphere_eq_addForce (w : Engine K) (body : dBodyID) (r p : K) :
    dBodyCalcAerodynamicDragSphere w body r p
      = dBodyAddForce w body (axisForce ((w body).lvel 0) 0.47 p (r * r * PI))
          (axisForce ((w body).lvel 1) 0.47 p (r * r * PI))
          (axisForce ((w body).lvel 2) 0.47 p (r * r * PI)) :=
  rfl

theorem wind_eq_addForce (w : Engine K) (body : dBodyID) (velWind : Fin 3 → K) (Cxo S p : K) :
    dBodyCalcWindStrength w body velWind Cxo S p
      = dBodyAddForce w body (axisForce ((w body).lvel 0 - velWind 0) Cxo p S)
          (axisForce ((w body).lvel 1 - velWind 1) Cxo p S)
          (axisForce ((w body).lvel 2 - velWind 2) Cxo p S) :=
  rfl

theorem wind3D_eq_addForce (w : Engine K) (body : dBodyID) (velWind Cxo S : Fin 3 → K)
    (p : K) :
    dBodyCalcWindStrength3D w body velWind Cxo S p
      = dBodyAddForce w body (axisForce ((w body).lvel 0 - velWind 0) (Cxo 0) p (S 0))
          (axisForce ((w body).lvel 1 - velWind 1) (Cxo 1) p (S 1))
          (axisForce ((w body).lvel 2 - velWind 2) (Cxo 2) p (S 2)) :=
  rfl

theorem windSphere_eq_addForce (w : Engine K) (body : dBodyID) (velWind : Fin 3 → K)
    (r p : K) :
    dBodyCalcWindStrengthSphere w body velWind r p
      = dBodyAddForce w body (axisForce ((w body).lvel 0 - velWind 0) 0.47 p (r * r * PI))
          (axisForce ((w body).lvel 1 - velWind 1) 0.47 p (r * r * PI))
          (axisForce ((w body).lvel 2 - velWind 2) 0.47 p (r * r * PI)) :=
  rfl

end Frame

/-! ## Claims on the engine state -/

/-- C12: with the engine as an explicit state (per body a linear velocity and a force
accumulator), each of the five force appliers leaves the engine in the state one call of
`dBodyAddForce` on the target body leaves it in: the accumulator of the target body becomes the
old accumulator plus the computed force on every axis (nothing is cleared or overwritten), the
linear velocity of the target body is unchanged, and every other body keeps its velocity and
its accumulator. -/
theorem appliers_push_once_and_frame {K : Type} [LinearOrderedField K]
    (w : Engine K) (body : dBodyID) (velWind Cxo3 S3 : Fin 3 → K) (Cxo S r p : K) :
    (dBodyCalcAerodynamicDrag w body Cxo S p
        = dBodyAddForce w body (axisForce ((w body).lvel 0) Cxo p S)
            (axisForce ((w body).lvel 1) Cxo p S)
            (axisForce ((w body).lvel 2) Cxo p S) ∧
      (∀ i, ((dBodyCalcAerodynamicDrag w body Cxo S p) body).facc i
          = (w body).facc i + axisForce ((w body).lvel i) Cxo p S) ∧
      ((dBodyCalcAerodynamicDrag w body Cxo S p) body).lvel = (w body).lvel ∧
      (∀ b, b ≠ body → (dBodyCalcAerodynamicDrag w body Cxo S p) b = w b)) ∧
    (dBodyCalcAerodynamicDragSphere w body r p
        = dBodyAddForce w body (axisForce ((w body).lvel 0) 0.47 p (r * r * PI))
            (axisForce ((w body).lvel 1) 0.47 p (r * r * PI))
            (axisForce ((w body).lvel 2) 0.47 p (r * r * PI)) ∧
      (∀ i, ((dBodyCalcAerodynamicDragSphere w body r p) body).facc i
          = (w body).facc i + axisForce ((w body).lvel i) 0.47 p (r * r * PI)) ∧
      ((dBodyCalcAerodynamicDragSphere w body r p) body).lvel = (w body).lvel ∧
      (∀ b, b ≠ body → (dBodyCalcAerodynamicDragSphere w body r p) b = w b)) ∧
    (dBodyCalcWindStrength w body velWind Cxo S p
        = dBodyAddForce w body (axisForce ((w body).lvel 0 - velWind 0) Cxo p S)
            (axisForce ((w body).lvel 1 - velWind 1) Cxo p S)
            (axisForce ((w body).lvel 2 - velWind 2) Cxo p S) ∧
      (∀ i, ((dBodyCalcWindStrength w body velWind Cxo S p) body).facc i
          = (w body).facc i + axisForce ((w body).lvel i - velWind i) Cxo p S) ∧
      ((dBodyCalcWindStrength w body velWind Cxo S p) body).lvel = (w body).lvel ∧
      (∀ b, b ≠ body → (dBodyCalcWindStrength w body velWind Cxo S p) b = w b)) ∧
    (dBodyCalcWindStrength3D w body velWind Cxo3 S3 p
        = dBodyAddForce w body (axisForce ((w body).lvel 0 - velWind 0) (Cxo3 0) p (S3 0))
            (axisForce ((w body).lvel 1 - velWind 1) (Cxo3 1) p (S3 1))
            (axisForce ((w body).lvel 2 - velWind 2) (Cxo3 2) p (S3 2)) ∧
      (∀ i, ((dBodyCalcWindStrength3D w body velWind Cxo3 S3 p) body).facc i
          = (w body).facc i + axisForce ((w body).lvel i - velWind i) (Cxo3 i) p (S3 i)) ∧
      ((dBodyCalcWindStrength3D w body velWind Cxo3 S3 p) body).lvel = (w body).lvel ∧
      (∀ b, b ≠ body → (dBodyCalcWindStrength3D w body velWind Cxo3 S3 p) b = w b)) ∧
    (dBodyCalcWindStrengthSphere w body velWind r p
        = dBodyAddForce w body (axisForce ((w body).lvel 0 - velWind 0) 0.47 p (r * r * PI))
            (axisForce ((w body).lvel 1 - velWind 1) 0.47 p (r * r * PI))
            (axisForce ((w body).lvel 2 - velWind 2) 0.47 p (r * r * PI)) ∧
      (∀ i, ((dBodyCalcWindStrengthSphere w body velWind r p) body).facc i
          = (w body).facc i + axisForce ((w body).lvel i - velWind i) 0.47 p (r * r * PI)) ∧
      ((dBodyCalcWindStrengthSphere w body velWind r p) body).lvel = (w body).lvel ∧
      (∀ b, b ≠ body → (dBodyCalcWindStrengthSphere w body velWind r p) b = w b)) := by
  refine ⟨?_, ?_, ?_, ?_, ?_⟩
  · exact ⟨drag_eq_addForce _ _ _ _ _, by
      rw [drag_eq_addForce]
      exact dBodyAddForce_frame w body
        (fun i => axisForce ((w body).lvel i) Cxo p S)⟩
  · exact ⟨dragSphere_eq_addForce _ _ _ _, by
      rw [dragSphere_eq_addForce]
      exact dBodyAddForce_frame w body
        (fun i => axisForce ((w body).lvel i) 0.47 p (r * r * PI))⟩
  · exact ⟨wind_eq_addForce _ _ _ _ _ _, by
      rw [wind_eq_addForce]
      exact dBodyAddForce_frame w body
        (fun i => axisForce ((w body).lvel i - velWind i) Cxo p S)⟩
  · exact ⟨wind3D_eq_addForce _ _ _ _ _ _, by
      rw [wind3D_eq_addForce]
      exact dBodyAddForce_frame w body
        (fun i => axisForce ((w body).lvel i - velWind i) (Cxo3 i) p (S3 i))⟩
  · exact ⟨windSphere_eq_addForce _ _ _ _ _, by
      rw [windSphere_eq_addForce]
      exact dBodyAddForce_frame w body
        (fun i => axisForce ((w body).lvel i - velWind i) 0.47 p (r * r * PI))⟩

/-- Witness for C12: every body moves with velocity `(10, 0, -5)` and has an empty
accumulator; the drag on body `0` with `Cxo = 0.47`, `S = 1`, `p = 1.22` leaves body `1`, which
is not body `0`, as it was, keeps the velocity of body `0`, and turns the accumulator of body
`0` on axis 0 into `0 + (-28.67)`. -/
theorem appliers_push_once_and_frame_witness :
    (1 : dBodyID) ≠ 0 ∧
    dBodyCalcAerodynamicDrag (engineWithVel (10 : ℚ) 0 (-5)) 0 0.47 1 1.22 1
      = engineWithVel (10 : ℚ) 0 (-5) 1 ∧
    (dBodyCalcAerodynamicDrag (engineWithVel (10 : ℚ) 0 (-5)) 0 0.47 1 1.22 0).lvel
      = vec3 10 0 (-5) ∧
    (dBodyCalcAerodynamicDrag (engineWithVel (10 : ℚ) 0 (-5)) 0 0.47 1 1.22 0).facc 0
      = 0 + (-28.67) := by
  have h := (appliers_push_once_and_frame (engineWithVel (10 : ℚ) 0 (-5)) 0 (vec3 0 0 0)
    (vec3 0.47 0.47 0.47) (vec3 1 1 1) 0.47 1 1 1.22).1
  refine ⟨by decide, h.2.2.2 1 (by decide), h.2.2.1, ?_⟩
  rw [h.2.1 0]
  simp only [engineWithVel, vec3]
  rw [axisForce_of_pos (by norm_num)]
  norm_num

/-! ## Molar mass and density formulas -/

/-- C13: every call `getAirMolarMass (P, Pv)` returns `0.02896 - 0.010944 * (Pv / P)`: on
machine values this is the expression the function evaluates, whatever `P` and `Pv` are, and
for exact numbers with `P != 0` (of either sign, and `Pv` of either sign) it is that number.
For every `P > 0` and `Pv >= 0` the result is at most the dry-air molar mass `0.02896`, with
equality exactly when `Pv = 0`. -/
theorem molar_mass_adjusted_downward {K : Type} [LinearOrderedField K] (P Pv : K)
    (P1 Pv1 : Machine.dReal) :
    Machine.getAirMolarMass P1 Pv1
        = Machine.dReal.fin 0.02896 - Machine.dReal.fin 0.010944 * (Pv1 / P1) ∧
    (P ≠ 0 → getAirMolarMass P Pv = some (0.02896 - 0.010944 * (Pv / P))) ∧
    (0 < P → 0 ≤ Pv →
      ∃ u, getAirMolarMass P Pv = some u ∧ u = 0.02896 - 0.010944 * (Pv / P) ∧
        u ≤ 0.02896 ∧ (u = 0.02896 ↔ Pv = 0)) := by
  refine ⟨rfl, fun hP => getAirMolarMass_of_ne hP Pv, fun hP hPv => ?_⟩
  refine ⟨_, getAirMolarMass_of_ne (ne_of_gt hP) Pv, rfl, ?_, ?_⟩
  · have hq : 0 ≤ Pv / P := div_nonneg hPv (le_of_lt hP)
    have : (0 : K) ≤ 0.010944 * (Pv / P) := mul_nonneg (by norm_num) hq
    linarith
  · constructor
    · intro h
      have h0 : (0.010944 : K) * (Pv / P) = 0 := by linarith
      rcases mul_eq_zero.mp h0 with hc | hq
      · norm_num at hc
      · rcases div_eq_zero_iff.mp hq with hv | hp
        · exact hv
        · exact absurd hp (ne_of_gt hP)
    · intro h
      rw [h, zero_div, mul_zero, sub_zero]

/-- Witness for C13: `P = 101325`, `Pv = 610.78` on `ℚ`, and the call with a negative
pressure, `P = -2`, `Pv = 1`, which returns `0.02896 - 0.010944 * (1 / (-2)) = 0.034432`. -/
theorem molar_mass_adjusted_downward_witness :
    ((101325 : ℚ) ≠ 0 ∧ (0 : ℚ) < 101325 ∧ (0 : ℚ) ≤ 610.78 ∧ (-2 : ℚ) ≠ 0) ∧
    (∃ u : ℚ, getAirMolarMass 101325 610.78 = some u ∧
      u = 0.02896 - 0.010944 * (610.78 / 101325) ∧ u ≤ 0.02896 ∧
      (u = 0.02896 ↔ (610.78 : ℚ) = 0)) ∧
    getAirMolarMass (-2 : ℚ) 1 = some 0.034432 := by
  refine ⟨⟨by norm_num, by norm_num, by norm_num, by norm_num⟩,
    (molar_mass_adjusted_downward (101325 : ℚ) 610.78 Machine.dReal.nan Machine.dReal.nan).2.2
      (by norm_num) (by norm_num), ?_⟩
  rw [(molar_mass_adjusted_downward (-2 : ℚ) 1 Machine.dReal.nan Machine.dReal.nan).2.1
    (by norm_num)]
  norm_num

/-! ## Relations between the appliers -/

/-- C15: the wind appliers see the body and wind velocities only through their difference.
For a body with velocity `v` and a wind `velWind`, `dBodyCalcWindStrength` pushes the force
`dBodyCalcAerodynamicDrag` pushes, with the same `Cxo`, `S`, `p`, on a body whose velocity is
`v - velWind`; any other body and wind with the same difference make each of the three wind
appliers push the same force; and with the wind `(0, 0, 0)` `dBodyCalcWindStrength` leaves the
engine exactly as `dBodyCalcAerodynamicDrag` does. -/
theorem wind_force_depends_on_relative_velocity {K : Type} [LinearOrderedField K]
    (w w1 w2 : Engine K) (body b1 b2 : dBodyID) (velWind velWind2 Cxo3 S3 : Fin 3 → K)
    (Cxo S r p : K)
    (h1 : ∀ j, (w1 b1).lvel j = (w body).lvel j - velWind j)
    (h2 : ∀ j, (w2 b2).lvel j - velWind2 j = (w body).lvel j - velWind j) :
    (∀ i, forcePushed w (dBodyCalcWindStrength w body velWind Cxo S p) body i
        = forcePushed w1 (dBodyCalcAerodynamicDrag w1 b1 Cxo S p) b1 i) ∧
    (∀ i, forcePushed w2 (dBodyCalcWindStrength w2 b2 velWind2 Cxo S p) b2 i
        = forcePushed w (dBodyCalcWindStrength w body velWind Cxo S p) body i) ∧
    (∀ i, forcePushed w2 (dBodyCalcWindStrength3D w2 b2 velWind2 Cxo3 S3 p) b2 i
        = forcePushed w (dBodyCalcWindStrength3D w body velWind Cxo3 S3 p) body i) ∧
    (∀ i, forcePushed w2 (dBodyCalcWindStrengthSphere w2 b2 velWind2 r p) b2 i
        = forcePushed w (dBodyCalcWindStrengthSphere w body velWind r p) body i) ∧
    dBodyCalcWindStrength w body (fun _ => 0) Cxo S p
        = dBodyCalcAerodynamicDrag w body Cxo S p ∧
    (∀ i, forcePushed w (dBodyCalcWindStrength w body (fun _ => 0) Cxo S p) body i
        = forcePushed w (dBodyCalcAerodynamicDrag w body Cxo S p) body i) := by
  refine ⟨fun i => ?_, fun i => ?_, fun i => ?_, fun i => ?_, ?_, fun i => ?_⟩
  · rw [forcePushed_wind, forcePushed_drag, h1 i]
  · rw [forcePushed_wind, forcePushed_wind, h2 i]
  · rw [forcePushed_wind3D, forcePushed_wind3D, h2 i]
  · rw [forcePushed_windSphere, forcePushed_windSphere, h2 i]
  · rw [wind_eq_addForce, drag_eq_addForce]
    simp only [sub_zero]
  · rw [forcePushed_wind, forcePushed_drag, sub_zero]

/-- Witness for C15: body velocity `(10, 0, -5)` in a wind `(4, 1, -7)`; the relative velocity
`(6, -1, 2)` is the velocity of the drag body, and also that of a body moving with
`(7, 0, 0)` in a wind `(1, 1, -2)`. -/
theorem wind_force_depends_on_relative_velocity_witness :
    ((∀ j, (engineWithVel (6 : ℚ) (-1) 2 0).lvel j
        = (engineWithVel (10 : ℚ) 0 (-5) 0).lvel j - vec3 4 1 (-7) j) ∧
      (∀ j, (engineWithVel (7 : ℚ) 0 0 0).lvel j - vec3 1 1 (-2) j
        = (engineWithVel (10 : ℚ) 0 (-5) 0).lvel j - vec3 4 1 (-7) j)) ∧
    (∀ i, forcePushed (engineWithVel (10 : ℚ) 0 (-5))
          (dBodyCalcWindStrength (engineWithVel (10 : ℚ) 0 (-5)) 0 (vec3 4 1 (-7)) 0.47 1 1.22)
          0 i
        = forcePushed (engineWithVel (6 : ℚ) (-1) 2)
          (dBodyCalcAerodynamicDrag (engineWithVel (6 : ℚ) (-1) 2) 0 0.47 1 1.22) 0 i) ∧
    (∀ i, forcePushed (engineWithVel (7 : ℚ) 0 0)
          (dBodyCalcWindStrength (engineWithVel (7 : ℚ) 0 0) 0 (vec3 1 1 (-2)) 0.47 1 1.22) 0 i
        = forcePushed (engineWithVel (10 : ℚ) 0 (-5))
          (dBodyCalcWindStrength (engineWithVel (10 : ℚ) 0 (-5)) 0 (vec3 4 1 (-7)) 0.47 1 1.22)
          0 i) := by
  have ha : ∀ j, (engineWithVel (6 : ℚ) (-1) 2 0).lvel j
      = (engineWithVel (10 : ℚ) 0 (-5) 0).lvel j - vec3 4 1 (-7) j := by
    intro j
    fin_cases j <;> simp [engineWithVel, vec3] <;> norm_num
  have hb : ∀ j, (engineWithVel (7 : ℚ) 0 0 0).lvel j - vec3 1 1 (-2) j
      = (engineWithVel (10 : ℚ) 0 (-5) 0).lvel j - vec3 4 1 (-7) j := by
    intro j
    fin_cases j <;> simp [engineWithVel, vec3] <;> norm_num
  have h := wind_force_depends_on_relative_velocity (engineWithVel (10 : ℚ) 0 (-5))
    (engineWithVel (6 : ℚ) (-1) 2) (engineWithVel (7 : ℚ) 0 0) 0 0 0 (vec3 4 1 (-7))
    (vec3 1 1 (-2)) (vec3 0.47 1.05 0.82) (vec3 1 2 3) 0.47 1 2 1.22 ha hb
  exact ⟨⟨ha, hb⟩, h.1, h.2.1⟩

/-- C16: called with the per-axis arrays `Cxo = (c, c, c)` and `S = (s, s, s)`,
`dBodyCalcWindStrength3D` leaves the engine as `dBodyCalcWindStrength` does with the scalars
`c` and `s`, so it pushes the same force vector; and in general the force the 3D variant pushes
on axis `i` is the same for any two calls that agree on `Cxo[i]`, `S[i]`, the density and the
relative velocity on axis `i`, whatever the other axes hold. -/
theorem wind3D_uniform_is_scalar_and_axiswise {K : Type} [LinearOrderedField K]
    (w w1 : Engine K) (body b1 : dBodyID) (velWind velWind1 Cxo3 Cxo31 S3 S31 : Fin 3 → K)
    (c s p : K) (i : Fin 3)
    (hC : Cxo31 i = Cxo3 i) (hS : S31 i = S3 i)
    (hv : (w1 b1).lvel i - velWind1 i = (w body).lvel i - velWind i) :
    dBodyCalcWindStrength3D w body velWind (fun _ => c) (fun _ => s) p
        = dBodyCalcWindStrength w body velWind c s p ∧
    (∀ j, forcePushed w
          (dBodyCalcWindStrength3D w body velWind (fun _ => c) (fun _ => s) p) body j
        = forcePushed w (dBodyCalcWindStrength w body velWind c s p) body j) ∧
    forcePushed w1 (dBodyCalcWindStrength3D w1 b1 velWind1 Cxo31 S31 p) b1 i
        = forcePushed w (dBodyCalcWindStrength3D w body velWind Cxo3 S3 p) body i ∧
    forcePushed w (dBodyCalcWindStrength3D w body velWind Cxo3 S3 p) body i
        = axisForce ((w body).lvel i - velWind i) (Cxo3 i) p (S3 i) := by
  refine ⟨rfl, fun _ => rfl, ?_, forcePushed_wind3D w body velWind Cxo3 S3 p i⟩
  rw [forcePushed_wind3D, forcePushed_wind3D, hC, hS, hv]

/-- Witness for C16: on axis 0 two calls with `Cxo[0] = 0.47`, `S[0] = 1` and relative velocity
`6` but different data on the other axes push the same force. -/
theorem wind3D_uniform_is_scalar_and_axiswise_witness :
    ((vec3 (0.47 : ℚ) 0.5 0.04 0 = vec3 0.47 1.05 0.82 0) ∧
      (vec3 (1 : ℚ) 5 6 0 = vec3 1 2 3 0) ∧
      ((engineWithVel (7 : ℚ) 3 3 0).lvel 0 - vec3 1 1 (-2) 0
        = (engineWithVel (10 : ℚ) 0 (-5) 0).lvel 0 - vec3 4 1 (-7) 0)) ∧
    forcePushed (engineWithVel (7 : ℚ) 3 3)
        (dBodyCalcWindStrength3D (engineWithVel (7 : ℚ) 3 3) 0 (vec3 1 1 (-2))
          (vec3 0.47 0.5 0.04) (vec3 1 5 6) 1.22) 0 0
      = forcePushed (engineWithVel (10 : ℚ) 0 (-5))
        (dBodyCalcWindStrength3D (engineWithVel (10 : ℚ) 0 (-5)) 0 (vec3 4 1 (-7))
          (vec3 0.47 1.05 0.82) (vec3 1 2 3) 1.22) 0 0 := by
  have hv : (engineWithVel (7 : ℚ) 3 3 0).lvel 0 - vec3 1 1 (-2) 0
      = (engineWithVel (10 : ℚ) 0 (-5) 0).lvel 0 - vec3 4 1 (-7) 0 := by
    simp [engineWithVel, vec3]
    norm_num
  exact ⟨⟨rfl, rfl, hv⟩,
    (wind3D_uniform_is_scalar_and_axiswise (engineWithVel (10 : ℚ) 0 (-5))
      (engineWithVel (7 : ℚ) 3 3) 0 0 (vec3 4 1 (-7)) (vec3 1 1 (-2)) (vec3 0.47 1.05 0.82)
      (vec3 0.47 0.5 0.04) (vec3 1 2 3) (vec3 1 5 6) 0.47 1 1.22 0 rfl rfl hv).2.2.1⟩

/-! ## Symmetry and range of the gravity formula -/

/-- At sea level the function is `9.780318 * (1 + 0.005302 * s² - 0.000006 * (2 s c)²)` with
`s`, `c` the sine and cosine of the angle in radians. -/
theorem gravity_sea_level_eq (psy : ℝ) :
    getAccelerationGravityLatitude psy 0
      = 9.780318 * (1 + 0.005302 * Real.sin (psy * PI / 180) ^ 2
          - 0.000006 * (2 * Real.sin (psy * PI / 180) * Real.cos (psy * PI / 180)) ^ 2) := by
  unfold getAccelerationGravityLatitude
  simp only [Real.sin_two_mul]
  ring

/-- C17: for every latitude `psy` (any real number of degrees) and altitude `h`,
`getAccelerationGravityLatitude (-psy, h) = getAccelerationGravityLatitude (psy, h)`, and the
sea-level value lies between the equator and pole values:
`9.780318 <= getAccelerationGravityLatitude (psy, 0) <= 9.780318 * (1 + 0.005302)`. -/
theorem gravity_even_and_bounded (psy h : ℝ) :
    getAccelerationGravityLatitude (-psy) h = getAccelerationGravityLatitude psy h ∧
    9.780318 ≤ getAccelerationGravityLatitude psy 0 ∧
    getAccelerationGravityLatitude psy 0 ≤ 9.780318 * (1 + 0.005302) := by
  refine ⟨?_, ?_, ?_⟩
  · have hrad : -psy * (PI : ℝ) / 180 = -(psy * PI / 180) := by ring
    have h2rad : 2 * -(psy * (PI : ℝ) / 180) = -(2 * (psy * PI / 180)) := by ring
    unfold getAccelerationGravityLatitude
    simp only [hrad, h2rad, Real.sin_neg, neg_mul_neg]
  · rw [gravity_sea_level_eq]
    have hsc := Real.sin_sq_add_cos_sq (psy * PI / 180)
    have hs : 0 ≤ Real.sin (psy * PI / 180) ^ 2 := sq_nonneg _
    have hc : 0 ≤ Real.cos (psy * PI / 180) ^ 2 := sq_nonneg _
    have hprod : 0 ≤ Real.sin (psy * PI / 180) ^ 2
        * (0.005302 - 0.000024 * Real.cos (psy * PI / 180) ^ 2) :=
      mul_nonneg hs (by nlinarith)
    nlinarith [hprod]
  · rw [gravity_sea_level_eq]
    have hsc := Real.sin_sq_add_cos_sq (psy * PI / 180)
    have hs : 0 ≤ Real.sin (psy * PI / 180) ^ 2 := sq_nonneg _
    have hc : 0 ≤ Real.cos (psy * PI / 180) ^ 2 := sq_nonneg _
    have hprod : 0 ≤ Real.sin (psy * PI / 180) ^ 2 * Real.cos (psy * PI / 180) ^ 2 :=
      mul_nonneg hs hc
    nlinarith [hprod]

/-! ## Humid against dry air -/

theorem vaporPressure_mono (T : ℝ) {RH1 RH2 : ℝ} (h : RH1 ≤ RH2) :
    vaporPressure T RH1 ≤ vaporPressure T RH2 := by
  unfold vaporPressure
  have h10 : (0 : ℝ) < (10 : ℝ) ^ ((7.5 * T - 2048.625) / (T - 35.85)) :=
    Real.rpow_pos_of_pos (by norm_num) _
  exact mul_le_mul_of_nonneg_right h (by positivity)

namespace Machine

open dReal

theorem ofReal_of_inRange {x : ℝ} (h : InRange x) : ofReal x = fin x := by
  unfold ofReal
  rw [if_neg (not_lt.mpr h.2), if_neg (not_lt.mpr h.1)]

theorem fin_add {x y : ℝ} (h : InRange (x + y)) : fin x + fin y = fin (x + y) :=
  ofReal_of_inRange h

theorem fin_sub {x y : ℝ} (h : InRange (x - y)) : fin x - fin y = fin (x - y) := by
  show ofReal (x + -y) = fin (x - y)
  rw [← sub_eq_add_neg]
  exact ofReal_of_inRange h

theorem fin_mul {x y : ℝ} (h : InRange (x * y)) : fin x * fin y = fin (x * y) :=
  ofReal_of_inRange h

theorem fin_div {x y : ℝ} (hy : y ≠ 0) (h : InRange (x / y)) : fin x / fin y = fin (x / y) := by
  show (if y = 0 then _ else ofReal (x / y)) = fin (x / y)
  rw [if_neg hy]
  exact ofReal_of_inRange h

theorem fin_div_zero_of_neg {x : ℝ} (hx : x < 0) : fin x / fin 0 = ninf := by
  show (if (0 : ℝ) = 0 then (if 0 < x then pinf else if x < 0 then ninf else nan) else _) = ninf
  rw [if_pos rfl, if_neg (not_lt.mpr (le_of_lt hx)), if_pos hx]

theorem neg_fin (x : ℝ) : -fin x = fin (-x) :=
  rfl

theorem pow10_fin {x : ℝ} (h : InRange ((10 : ℝ) ^ x)) : pow10 (fin x) = fin ((10 : ℝ) ^ x) :=
  ofReal_of_inRange h

theorem exp_fin {x : ℝ} (h : InRange (Real.exp x)) : exp (fin x) = fin (Real.exp x) :=
  ofReal_of_inRange h

theorem inRange_zero : InRange 0 := by
  unfold InRange DBL_MAX
  constructor <;> norm_num

/-- Away from `T = 35.85`, and when nothing overflows, the machine value of `Pv` is the real
number `vaporPressure T RH`. -/
theorem vaporPressure_eval {T RH : ℝ} (hT2 : T ≠ 35.85) (hr : VaporInRange T RH) :
    vaporPressure (fin T) (fin RH) = fin (OdeAirLib.vaporPressure T RH) := by
  obtain ⟨h1, h2, h3, h4, h5, h6, h7, h8⟩ := hr
  unfold vaporPressure OdeAirLib.vaporPressure
  rw [fin_mul h1, fin_sub h2, fin_sub h3, fin_div (sub_3585_ne hT2) h4, pow10_fin h5,
    fin_mul h6, fin_mul h7, fin_mul h8]

/-- At `T = 35.85` the exponent is `-1779.75 / 0 = -inf`, `pow (10, -inf)` is `0` and `Pv` is
`0`, whatever the humidity. -/
theorem vaporPressure_eval_3585 (RH : ℝ) : vaporPressure (fin 35.85) (fin RH) = fin 0 := by
  have h1 : InRange ((7.5 : ℝ) * 35.85) := by
    unfold InRange DBL_MAX; constructor <;> norm_num
  have h2 : InRange ((7.5 : ℝ) * 35.85 - 2048.625) := by
    unfold InRange DBL_MAX; constructor <;> norm_num
  have h3 : InRange ((35.85 : ℝ) - 35.85) := by
    rw [sub_self]; exact inRange_zero
  have hneg : (7.5 : ℝ) * 35.85 - 2048.625 < 0 := by norm_num
  have h4 : InRange ((6.1078 : ℝ) * 0) := by rw [mul_zero]; exact inRange_zero
  have h5 : InRange ((6.1078 : ℝ) * 0 * 100) := by
    rw [mul_zero, zero_mul]; exact inRange_zero
  have h6 : InRange (RH * ((6.1078 : ℝ) * 0 * 100)) := by
    rw [mul_zero, zero_mul, mul_zero]; exact inRange_zero
  unfold vaporPressure
  rw [fin_mul h1, fin_sub h2, fin_sub h3, sub_self, fin_div_zero_of_neg hneg]
  show fin RH * (fin 6.1078 * fin 0 * fin 100) = fin 0
  rw [fin_mul h4, fin_mul h5, fin_mul h6]
  norm_num

/-- When `Pv` is the number `v`, `T` is not zero and nothing overflows, the machine value of
`getAirDensity (T, P, RH)` is the real number `(P - v) / (Rd * T) + v / (Rv * T)`. -/
theorem getAirDensity_eval {T P RH v : ℝ} (hT : T ≠ 0)
    (hv : vaporPressure (fin T) (fin RH) = fin v) (hr : DensityTailInRange T P v) :
    getAirDensity (fin T) (fin P) (fin RH)
      = fin ((P - v) / (287.058 * T) + v / (461.495 * T)) := by
  obtain ⟨h1, h2, h3, h4, h5, h6⟩ := hr
  have hd : (287.058 : ℝ) * T ≠ 0 := mul_ne_zero (by norm_num) hT
  have hw : (461.495 : ℝ) * T ≠ 0 := mul_ne_zero (by norm_num) hT
  show (fin P - vaporPressure (fin T) (fin RH)) / (fin 287.058 * fin T)
      + vaporPressure (fin T) (fin RH) / (fin 461.495 * fin T) = _
  rw [hv, fin_sub h1, fin_mul h2, fin_div hd h3, fin_mul h4, fin_div hw h5, fin_add h6]

/-- When `Pv` is the number `v`, `T` and `P0` are not zero and nothing overflows, the machine
value of `getAirPressureFromAltitude (h, T, P0, RH, g)` is the real number
`P0 * exp (-u * g * h / (R * T))` with `u = 0.02896 - 0.010944 * (v / P0)`. -/
theorem getAirPressureFromAltitude_eval {h T P0 RH g v : ℝ} (hT : T ≠ 0) (hP0 : P0 ≠ 0)
    (hv : vaporPressure (fin T) (fin RH) = fin v) (hr : PressureTailInRange h T P0 g v) :
    getAirPressureFromAltitude (fin h) (fin T) (fin P0) (fin RH) (fin g)
      = fin (P0 * Real.exp (-(0.02896 - 0.010944 * (v / P0)) * g * h / (8.31 * T))) := by
  obtain ⟨h1, h2, h3, h4, h5, h6, h7, h8, h9⟩ := hr
  have hRT : (8.31 : ℝ) * T ≠ 0 := mul_ne_zero (by norm_num) hT
  show fin P0 * exp ((-(fin 0.02896 - fin 0.010944
      * (vaporPressure (fin T) (fin RH) / fin P0)) * fin g * fin h) / (fin 8.31 * fin T)) = _
  rw [hv, fin_div hP0 h1, fin_mul h2, fin_sub h3, neg_fin, fin_mul h4, fin_mul h5, fin_mul h6,
    fin_div hRT h7, exp_fin h8, fin_mul h9]

end Machine

/-! ## Claims settled on the machine reading -/

namespace Machine

open dReal

theorem dReal_mul_comm (a b : dReal) : a * b = b * a := by
  show mul a b = mul b a
  cases a <;> cases b <;> simp [mul, mul_comm]

theorem inRange_of_abs_le {x : ℝ} (h : |x| ≤ 1000000000000) : InRange x := by
  have h2 := abs_le.mp h
  unfold InRange DBL_MAX
  constructor <;> norm_num <;> linarith [h2.1, h2.2]

theorem vaporInRange_27315 {RH : ℝ} (hRH : |RH| ≤ 1000000) : VaporInRange 273.15 RH := by
  have he : ((7.5 : ℝ) * 273.15 - 2048.625) / (273.15 - 35.85) = 0 := by norm_num
  have hR := abs_le.mp hRH
  unfold VaporInRange
  rw [he, Real.rpow_zero]
  refine ⟨?_, ?_, ?_, ?_, ?_, ?_, ?_, ?_⟩ <;> apply inRange_of_abs_le <;> rw [abs_le] <;>
    constructor <;> norm_num <;> linarith [hR.1, hR.2]

/-- C14: for every `T`, `P` and `RH`, `getAirDensity (T, P, RH)` is
`Pd / (287.058 * T) + Pv / (461.495 * T)` with `Pv = RH * 100 * 6.1078 * 10^((7.5*T - 2048.625)/(T - 35.85))`
and `Pd = P - Pv`: this holds of the machine values whatever the arguments are (infinities
included), and whenever `T` is neither `0` nor `35.85` and no intermediate result overflows the
returned value is that real number.  At `T = 35.85` the exponent is `-inf`, `Pv` is `0` and the
returned value is `P / (287.058 * T)`.  `RH` multiplies the saturation pressure as it is, with
no division by 100. -/
theorem getAirDensity_formula (T P RH : dReal) (t p rh : ℝ) :
    getAirDensity T P RH
      = (P - RH * (fin 100 * (fin 6.1078
            * pow10 ((fin 7.5 * T - fin 2048.625) / (T - fin 35.85))))) / (fin 287.058 * T)
        + RH * (fin 100 * (fin 6.1078
            * pow10 ((fin 7.5 * T - fin 2048.625) / (T - fin 35.85)))) / (fin 461.495 * T) ∧
    (t ≠ 0 → t ≠ 35.85 → DensityInRange t p rh →
      getAirDensity (fin t) (fin p) (fin rh)
        = fin ((p - rh * 100 * 6.1078 * (10 : ℝ) ^ ((7.5 * t - 2048.625) / (t - 35.85)))
              / (287.058 * t)
            + rh * 100 * 6.1078 * (10 : ℝ) ^ ((7.5 * t - 2048.625) / (t - 35.85))
              / (461.495 * t))) ∧
    (DensityTailInRange 35.85 p 0 →
      getAirDensity (fin 35.85) (fin p) (fin rh) = fin (p / (287.058 * 35.85))) := by
  refine ⟨?_, ?_, ?_⟩
  · rw [dReal_mul_comm (fin 100)]
    rfl
  · intro ht ht2 hr
    have hPv : OdeAirLib.vaporPressure t rh
        = rh * 100 * 6.1078 * (10 : ℝ) ^ ((7.5 * t - 2048.625) / (t - 35.85)) := by
      unfold OdeAirLib.vaporPressure
      ring
    rw [getAirDensity_eval ht (vaporPressure_eval ht2 hr.1) hr.2, hPv]
  · intro hr
    rw [getAirDensity_eval (by norm_num) (vaporPressure_eval_3585 rh) hr]
    congr 1
    rw [sub_zero, zero_div, add_zero]

/-- Witness for C14: at `T = 273.15`, where the saturation pressure is `610.78` Pa, `RH = 1`
puts all of it into `Pv`; and at `T = 35.85`, `P = 101325`, `RH = 0.5` the returned value is
`101325 / (287.058 * 35.85)`. -/
theorem getAirDensity_formula_witness :
    ((273.15 : ℝ) ≠ 0 ∧ (273.15 : ℝ) ≠ 35.85 ∧ DensityInRange 273.15 101325 1 ∧
      DensityTailInRange 35.85 101325 0) ∧
    getAirDensity (fin 273.15) (fin 101325) (fin 1)
      = fin ((101325 - 610.78) / (287.058 * 273.15) + 610.78 / (461.495 * 273.15)) ∧
    getAirDensity (fin 35.85) (fin 101325) (fin 0.5) = fin (101325 / (287.058 * 35.85)) := by
  have hv : VaporInRange 273.15 1 := vaporInRange_27315 (by norm_num)
  have hd : DensityInRange 273.15 101325 1 := by
    refine ⟨hv, ?_⟩
    rw [vaporPressure_27315]
    unfold DensityTailInRange
    refine ⟨?_, ?_, ?_, ?_, ?_, ?_⟩ <;> apply inRange_of_abs_le <;> rw [abs_le] <;>
      constructor <;> norm_num
  have ht : DensityTailInRange 35.85 101325 0 := by
    unfold DensityTailInRange
    refine ⟨?_, ?_, ?_, ?_, ?_, ?_⟩ <;> apply inRange_of_abs_le <;> rw [abs_le] <;>
      constructor <;> norm_num
  have he : ((7.5 : ℝ) * 273.15 - 2048.625) / (273.15 - 35.85) = 0 := by norm_num
  refine ⟨⟨by norm_num, by norm_num, hd, ht⟩, ?_, ?_⟩
  · rw [(getAirDensity_formula nan nan nan 273.15 101325 1).2.1 (by norm_num) (by norm_num) hd,
      he, Real.rpow_zero]
    congr 1
    norm_num
  · exact (getAirDensity_formula nan nan nan 273.15 101325 0.5).2.2 ht

theorem inRange_exp_of_le_one {x : ℝ} (hx : x ≤ 1) : InRange (Real.exp x) := by
  have h1 : Real.exp x ≤ Real.exp 1 := Real.exp_le_exp.mpr hx
  have h2 := Real.exp_one_lt_d9
  have h3 := Real.exp_pos x
  apply inRange_of_abs_le
  rw [abs_le]
  constructor <;> linarith

theorem inRange_mul_exp_of_le_one {P0 x : ℝ} (hP : |P0| ≤ 1000000000) (hx : x ≤ 1) :
    InRange (P0 * Real.exp x) := by
  have h1 : Real.exp x ≤ Real.exp 1 := Real.exp_le_exp.mpr hx
  have h2 := Real.exp_one_lt_d9
  have h3 := Real.exp_pos x
  have hP2 := abs_le.mp hP
  apply inRange_of_abs_le
  rw [abs_le]
  constructor <;> nlinarith

/-- The ranges of the barometric part at `T = 273.15`, `P0 = 100`, `g = 9.81`, `Pv = 610.78` and
the altitudes `0` and `1000`. -/
theorem pressureTailInRange_vapor_dominates :
    PressureTailInRange 0 273.15 100 9.81 610.78 ∧
    PressureTailInRange 1000 273.15 100 9.81 610.78 := by
  constructor <;> unfold PressureTailInRange <;>
    refine ⟨?_, ?_, ?_, ?_, ?_, ?_, ?_, inRange_exp_of_le_one (by norm_num),
      inRange_mul_exp_of_le_one (by rw [abs_le]; constructor <;> norm_num) (by norm_num)⟩ <;>
    apply inRange_of_abs_le <;> rw [abs_le] <;> constructor <;> norm_num

/-- C5, as stated, fails.  With `T = 273.15`, `RH = 1`, `P0 = 100`, `g = 9.81` (all positive)
the vapour pressure `610.78` exceeds `P0` so much that the molar mass `getAirMolarMass` returns
is negative, and the pressure grows with the altitude: it is `100` at `h = 0` and more than
`100` at `h = 1000`. -/
theorem pressure_not_antitone_in_altitude :
    ((0 : ℝ) < 273.15 ∧ (0 : ℝ) < 1 ∧ (0 : ℝ) < 100 ∧ (0 : ℝ) < 9.81 ∧ (0 : ℝ) ≤ 1000) ∧
    ∃ p2 : ℝ,
      getAirPressureFromAltitude (fin 0) (fin 273.15) (fin 100) (fin 1) (fin 9.81) = fin 100 ∧
      getAirPressureFromAltitude (fin 1000) (fin 273.15) (fin 100) (fin 1) (fin 9.81) = fin p2 ∧
      100 < p2 := by
  have hv : vaporPressure (fin 273.15) (fin 1) = fin 610.78 := by
    rw [vaporPressure_eval (by norm_num) (vaporInRange_27315 (by norm_num)),
      vaporPressure_27315]
    norm_num
  have hu : (0.02896 : ℝ) - 0.010944 * (610.78 / 100) < 0 := by norm_num
  have hx := barometric_exponent_strictMono hu (show (0 : ℝ) < 9.81 by norm_num)
    (show (0 : ℝ) < 273.15 by norm_num) (show (0 : ℝ) < 1000 by norm_num)
  have he := Real.exp_lt_exp.mpr hx
  refine ⟨by norm_num, _, ?_,
    getAirPressureFromAltitude_eval (by norm_num) (by norm_num) hv
      pressureTailInRange_vapor_dominates.2, ?_⟩
  · rw [getAirPressureFromAltitude_eval (by norm_num) (by norm_num) hv
      pressureTailInRange_vapor_dominates.1]
    congr 1
    rw [mul_zero, zero_div, Real.exp_zero, mul_one]
  · rw [mul_zero, zero_div, Real.exp_zero] at he
    linarith

/-- C5, amended: for every `T > 0` (`T = 35.85` included, where `Pv` is `0`), `P0 > 0`, `g > 0`
and `RH` for which the vapour pressure `Pv` the function computes is a number `v` with
`0.010944 * v <= 0.02896 * P0` (the molar mass is not negative; so whenever `Pv <= P0`), and for
all altitudes `h1 <= h2` at which no intermediate result overflows, the pressure
`getAirPressureFromAltitude (h, T, P0, RH, g)` at `h2` is at most the pressure at `h1`. -/
theorem pressure_antitone_in_altitude (T RH P0 g v h1 h2 : ℝ) (hT : 0 < T) (hP0 : 0 < P0)
    (hg : 0 < g) (hv : vaporPressure (fin T) (fin RH) = fin v)
    (hPv : 0.010944 * v ≤ 0.02896 * P0) (h12 : h1 ≤ h2)
    (hr1 : PressureTailInRange h1 T P0 g v) (hr2 : PressureTailInRange h2 T P0 g v) :
    ∃ p1 p2,
      getAirPressureFromAltitude (fin h1) (fin T) (fin P0) (fin RH) (fin g) = fin p1 ∧
      getAirPressureFromAltitude (fin h2) (fin T) (fin P0) (fin RH) (fin g) = fin p2 ∧
      p2 ≤ p1 := by
  have hu : 0 ≤ 0.02896 - 0.010944 * (v / P0) := by
    have : 0.010944 * (v / P0) ≤ 0.02896 := by
      rw [← mul_div_assoc, div_le_iff₀ hP0]
      exact hPv
    linarith
  refine ⟨_, _, getAirPressureFromAltitude_eval (ne_of_gt hT) (ne_of_gt hP0) hv hr1,
    getAirPressureFromAltitude_eval (ne_of_gt hT) (ne_of_gt hP0) hv hr2, ?_⟩
  exact mul_le_mul_of_nonneg_left
    (Real.exp_le_exp.mpr (barometric_exponent_antitone hu hg hT h12)) (le_of_lt hP0)

/-- The ranges of the barometric part at `T = 35.85`, `P0 = 101325`, `g = 9.81`, `Pv = 0` and
the altitudes `0` and `1000`. -/
theorem pressureTailInRange_3585 :
    PressureTailInRange 0 35.85 101325 9.81 0 ∧
    PressureTailInRange 1000 35.85 101325 9.81 0 := by
  constructor <;> unfold PressureTailInRange <;>
    refine ⟨?_, ?_, ?_, ?_, ?_, ?_, ?_, inRange_exp_of_le_one (by norm_num),
      inRange_mul_exp_of_le_one (by rw [abs_le]; constructor <;> norm_num) (by norm_num)⟩ <;>
    apply inRange_of_abs_le <;> rw [abs_le] <;> constructor <;> norm_num

/-- Witness for C5 (amended): `T = 35.85`, `RH = 0.5`, `P0 = 101325`, `g = 9.81`, where `Pv` is
`0`, and the altitudes `0` and `1000`. -/
theorem pressure_antitone_in_altitude_witness :
    ((0 : ℝ) < 35.85 ∧ (0 : ℝ) < 101325 ∧ (0 : ℝ) < 9.81 ∧
      vaporPressure (fin 35.85) (fin 0.5) = fin 0 ∧
      (0.010944 : ℝ) * 0 ≤ 0.02896 * 101325 ∧ (0 : ℝ) ≤ 1000 ∧
      PressureTailInRange 0 35.85 101325 9.81 0 ∧
      PressureTailInRange 1000 35.85 101325 9.81 0) ∧
    ∃ p1 p2,
      getAirPressureFromAltitude (fin 0) (fin 35.85) (fin 101325) (fin 0.5) (fin 9.81)
        = fin p1 ∧
      getAirPressureFromAltitude (fin 1000) (fin 35.85) (fin 101325) (fin 0.5) (fin 9.81)
        = fin p2 ∧
      p2 ≤ p1 :=
  ⟨⟨by norm_num, by norm_num, by norm_num, vaporPressure_eval_3585 0.5, by norm_num,
      by norm_num, pressureTailInRange_3585.1, pressureTailInRange_3585.2⟩,
    pressure_antitone_in_altitude 35.85 0.5 101325 9.81 0 0 1000 (by norm_num) (by norm_num)
      (by norm_num) (vaporPressure_eval_3585 0.5) (by norm_num) (by norm_num)
      pressureTailInRange_3585.1 pressureTailInRange_3585.2⟩

theorem getAirPressureFromAltitude_eval_barometric {h T P0 RH g v : ℝ} (hT : T ≠ 0)
    (hP0 : P0 ≠ 0) (hv : vaporPressure (fin T) (fin RH) = fin v)
    (hr : PressureTailInRange h T P0 g v) :
    getAirPressureFromAltitude (fin h) (fin T) (fin P0) (fin RH) (fin g)
      = fin (barometricPressure h T P0 g v) :=
  getAirPressureFromAltitude_eval hT hP0 hv hr

/-- The pressure falls with the altitude when the molar mass is not negative. -/
theorem barometricPressure_antitone {T P0 g v : ℝ} (hT : 0 < T) (hP0 : 0 < P0) (hg : 0 < g)
    (hPv : 0.010944 * v ≤ 0.02896 * P0) {h1 h2 : ℝ} (h12 : h1 ≤ h2) :
    barometricPressure h2 T P0 g v ≤ barometricPressure h1 T P0 g v := by
  have hu : 0 ≤ 0.02896 - 0.010944 * (v / P0) := by
    have : 0.010944 * (v / P0) ≤ 0.02896 := by
      rw [← mul_div_assoc, div_le_iff₀ hP0]
      exact hPv
    linarith
  unfold barometricPressure
  exact mul_le_mul_of_nonneg_left
    (Real.exp_le_exp.mpr (barometric_exponent_antitone hu hg hT h12)) (le_of_lt hP0)

/-- C6, amended: for every `T > 0` (`T = 35.85` included, where `Pv` is `0`), `P0 > 0`, `g > 0`
and `RH` for which the vapour pressure `Pv` the functions compute is a number `v` with
`0.010944 * v <= 0.02896 * P0` (the molar mass is not negative), and for all altitudes
`h1 <= h2` at which no intermediate result of the pressure and of the density overflows, the
density `getAirDensity (T, getAirPressureFromAltitude (h, T, P0, RH, g), RH)` at `h2` is at most
the density at `h1`. -/
theorem density_antitone_in_altitude (T RH P0 g v h1 h2 : ℝ) (hT : 0 < T) (hP0 : 0 < P0)
    (hg : 0 < g) (hv : vaporPressure (fin T) (fin RH) = fin v)
    (hPv : 0.010944 * v ≤ 0.02896 * P0) (h12 : h1 ≤ h2)
    (hr1 : PressureTailInRange h1 T P0 g v) (hr2 : PressureTailInRange h2 T P0 g v)
    (hd1 : DensityTailInRange T (barometricPressure h1 T P0 g v) v)
    (hd2 : DensityTailInRange T (barometricPressure h2 T P0 g v) v) :
    ∃ d1 d2,
      getAirDensity (fin T)
          (getAirPressureFromAltitude (fin h1) (fin T) (fin P0) (fin RH) (fin g)) (fin RH)
        = fin d1 ∧
      getAirDensity (fin T)
          (getAirPressureFromAltitude (fin h2) (fin T) (fin P0) (fin RH) (fin g)) (fin RH)
        = fin d2 ∧
      d2 ≤ d1 := by
  have hT0 : T ≠ 0 := ne_of_gt hT
  rw [getAirPressureFromAltitude_eval_barometric hT0 (ne_of_gt hP0) hv hr1,
    getAirPressureFromAltitude_eval_barometric hT0 (ne_of_gt hP0) hv hr2]
  exact ⟨_, _, getAirDensity_eval hT0 hv hd1, getAirDensity_eval hT0 hv hd2,
    density_formula_mono hT v (barometricPressure_antitone hT hP0 hg hPv h12)⟩

theorem abs_barometricPressure_le {h T P0 g v : ℝ} (hP0 : 0 ≤ P0) (hP : P0 ≤ 200000)
    (hx : -(0.02896 - 0.010944 * (v / P0)) * g * h / (8.31 * T) ≤ 1) :
    |barometricPressure h T P0 g v| ≤ 1000000 := by
  have h1 := Real.exp_le_exp.mpr hx
  have h2 := Real.exp_one_lt_d9
  have h3 := Real.exp_pos (-(0.02896 - 0.010944 * (v / P0)) * g * h / (8.31 * T))
  unfold barometricPressure
  rw [abs_le]
  constructor <;> nlinarith

theorem densityTailInRange_27315 {P : ℝ} (hP : |P| ≤ 1000000) :
    DensityTailInRange 273.15 P 610.78 := by
  have hP2 := abs_le.mp hP
  unfold DensityTailInRange
  refine ⟨?_, ?_, ?_, ?_, ?_, ?_⟩ <;> apply inRange_of_abs_le <;> rw [abs_le] <;>
    constructor <;> norm_num <;> linarith [hP2.1, hP2.2]

theorem densityTailInRange_3585 {P : ℝ} (hP : |P| ≤ 1000000) :
    DensityTailInRange 35.85 P 0 := by
  have hP2 := abs_le.mp hP
  unfold DensityTailInRange
  refine ⟨?_, ?_, ?_, ?_, ?_, ?_⟩ <;> apply inRange_of_abs_le <;> rw [abs_le] <;>
    constructor <;> norm_num <;> linarith [hP2.1, hP2.2]

/-- C6, as stated, fails.  With `T = 273.15`, `RH = 1`, `P0 = 100`, `g = 9.81` (all positive)
the molar mass is negative, the pressure grows with the altitude, and with it the density
`getAirDensity (T, getAirPressureFromAltitude (h, T, P0, RH, g), RH)`: it is larger at
`h = 1000` than at `h = 0`. -/
theorem density_not_antitone_in_altitude :
    ((0 : ℝ) < 273.15 ∧ (0 : ℝ) < 1 ∧ (0 : ℝ) < 100 ∧ (0 : ℝ) < 9.81 ∧ (0 : ℝ) ≤ 1000) ∧
    ∃ d1 d2 : ℝ,
      getAirDensity (fin 273.15)
          (getAirPressureFromAltitude (fin 0) (fin 273.15) (fin 100) (fin 1) (fin 9.81))
          (fin 1) = fin d1 ∧
      getAirDensity (fin 273.15)
          (getAirPressureFromAltitude (fin 1000) (fin 273.15) (fin 100) (fin 1) (fin 9.81))
          (fin 1) = fin d2 ∧
      d1 < d2 := by
  have hv : vaporPressure (fin 273.15) (fin 1) = fin 610.78 := by
    rw [vaporPressure_eval (by norm_num) (vaporInRange_27315 (by norm_num)),
      vaporPressure_27315]
    norm_num
  have hu : (0.02896 : ℝ) - 0.010944 * (610.78 / 100) < 0 := by norm_num
  have hx := barometric_exponent_strictMono hu (show (0 : ℝ) < 9.81 by norm_num)
    (show (0 : ℝ) < 273.15 by norm_num) (show (0 : ℝ) < 1000 by norm_num)
  have hp : barometricPressure 0 273.15 100 9.81 610.78
      < barometricPressure 1000 273.15 100 9.81 610.78 := by
    unfold barometricPressure
    exact mul_lt_mul_of_pos_left (Real.exp_lt_exp.mpr hx) (by norm_num)
  have hb0 : |barometricPressure 0 273.15 100 9.81 610.78| ≤ 1000000 :=
    abs_barometricPressure_le (by norm_num) (by norm_num) (by norm_num)
  have hb1 : |barometricPressure 1000 273.15 100 9.81 610.78| ≤ 1000000 :=
    abs_barometricPressure_le (by norm_num) (by norm_num) (by norm_num)
  rw [getAirPressureFromAltitude_eval_barometric (by norm_num) (by norm_num) hv
      pressureTailInRange_vapor_dominates.1,
    getAirPressureFromAltitude_eval_barometric (by norm_num) (by norm_num) hv
      pressureTailInRange_vapor_dominates.2]
  exact ⟨by norm_num, _, _,
    getAirDensity_eval (by norm_num) hv (densityTailInRange_27315 hb0),
    getAirDensity_eval (by norm_num) hv (densityTailInRange_27315 hb1),
    density_formula_strictMono (by norm_num) _ hp⟩

/-- Witness for C6 (amended): `T = 35.85`, `RH = 0.5`, `P0 = 101325`, `g = 9.81`, where `Pv` is
`0`, and the altitudes `0` and `1000`. -/
theorem density_antitone_in_altitude_witness :
    ((0 : ℝ) < 35.85 ∧ (0 : ℝ) < 101325 ∧ (0 : ℝ) < 9.81 ∧
      vaporPressure (fin 35.85) (fin 0.5) = fin 0 ∧
      (0.010944 : ℝ) * 0 ≤ 0.02896 * 101325 ∧ (0 : ℝ) ≤ 1000 ∧
      PressureTailInRange 0 35.85 101325 9.81 0 ∧
      PressureTailInRange 1000 35.85 101325 9.81 0 ∧
      DensityTailInRange 35.85 (barometricPressure 0 35.85 101325 9.81 0) 0 ∧
      DensityTailInRange 35.85 (barometricPressure 1000 35.85 101325 9.81 0) 0) ∧
    ∃ d1 d2,
      getAirDensity (fin 35.85)
          (getAirPressureFromAltitude (fin 0) (fin 35.85) (fin 101325) (fin 0.5) (fin 9.81))
          (fin 0.5) = fin d1 ∧
      getAirDensity (fin 35.85)
          (getAirPressureFromAltitude (fin 1000) (fin 35.85) (fin 101325) (fin 0.5) (fin 9.81))
          (fin 0.5) = fin d2 ∧
      d2 ≤ d1 := by
  have hd0 : DensityTailInRange 35.85 (barometricPressure 0 35.85 101325 9.81 0) 0 :=
    densityTailInRange_3585
      (abs_barometricPressure_le (by norm_num) (by norm_num) (by norm_num))
  have hd1 : DensityTailInRange 35.85 (barometricPressure 1000 35.85 101325 9.81 0) 0 :=
    densityTailInRange_3585
      (abs_barometricPressure_le (by norm_num) (by norm_num) (by norm_num))
  exact ⟨⟨by norm_num, by norm_num, by norm_num, vaporPressure_eval_3585 0.5, by norm_num,
      by norm_num, pressureTailInRange_3585.1, pressureTailInRange_3585.2, hd0, hd1⟩,
    density_antitone_in_altitude 35.85 0.5 101325 9.81 0 0 1000 (by norm_num) (by norm_num)
      (by norm_num) (vaporPressure_eval_3585 0.5) (by norm_num) (by norm_num)
      pressureTailInRange_3585.1 pressureTailInRange_3585.2 hd0 hd1⟩

end Machine

end OdeAirLib
